import Mathlib

/-!
Verification of the schema-to-artifact pipeline of the LaymanDB repository
(schema normalizer, SQL generator preprocessing and dialect dispatch,
Mermaid diagram generator, documentation generators).

The JavaScript sources are shallowly embedded: JavaScript objects become
Lean structures (absent / undefined optional fields become `Option` or a
`false` / `[]` default), in-place mutation of arrays of objects becomes
explicit value passing (an update at the index of the mutated element),
and the specific regular-expression rewrites used by the Mermaid
auto-formatter are implemented as dedicated scanners over `List Char`
that realise the exact pattern semantics (all the character classes
appearing in those patterns are pairwise disjoint where greediness
matters, which the comments justify case by case).

Fields of the source objects that no claim and no embedded code path
reads (layout `position`, `assumptionsMade`, `nodePositions`,
`createdAt` / `updatedAt` dates, `version`) are omitted from the
embedding; a comment marks each omission.
-/

/-! ## JavaScript-semantics helpers -/

/-- Characters matched by the JavaScript regex class `\s` (the ASCII ones;
the embedded code paths only ever see ASCII text). -/
def jsWsChar (c : Char) : Bool :=
  c == ' ' || c == '\t' || c == '\n' || c == '\r' || c == '\x0b' || c == '\x0c'

/-- Characters matched by the JavaScript regex class `\w`. -/
def jsWordChar (c : Char) : Bool :=
  ('a' ≤ c && c ≤ 'z') || ('A' ≤ c && c ≤ 'Z') || ('0' ≤ c && c ≤ '9') || c == '_'

def isLowerAZ (c : Char) : Bool := 'a' ≤ c && c ≤ 'z'

def isUpperAZ (c : Char) : Bool := 'A' ≤ c && c ≤ 'Z'

def isDigit09 (c : Char) : Bool := '0' ≤ c && c ≤ '9'

/-- ASCII lower-casing, as `String.prototype.toLowerCase` acts on the
ASCII text flowing through the embedded code. -/
def asciiLower (c : Char) : Char :=
  if isUpperAZ c then Char.ofNat (c.toNat + 32) else c

def asciiUpper (c : Char) : Char :=
  if isLowerAZ c then Char.ofNat (c.toNat - 32) else c

def lowerStr (s : String) : String := ⟨s.data.map asciiLower⟩

def upperStr (s : String) : String := ⟨s.data.map asciiUpper⟩

/-- JavaScript `a || b` on two strings (`""` is falsy). -/
def jsOr (a b : String) : String := if a = "" then b else a

/-- JavaScript `a || b` where `a` may be `undefined` (`none`). -/
def jsOrO (a : Option String) (b : String) : String :=
  match a with
  | some s => jsOr s b
  | none => b

/-- JavaScript truthiness of a possibly-undefined string. -/
def jsTruthy (a : Option String) : Bool :=
  match a with
  | some s => s != ""
  | none => false

/-- JavaScript `a || b` keeping the optional shape (used for fallback
chains such as `relationship.sourceEntity || relationship.sourceTable`). -/
def jsOrOpt (a b : Option String) : Option String :=
  if jsTruthy a then a else b

/-- JavaScript `x || null` (a falsy string collapses to null). -/
def jsOrNull (a : Option String) : Option String :=
  if jsTruthy a then a else none

/-- String interpolation of a possibly-undefined value (JavaScript renders
`undefined` as the literal text "undefined" inside a template). -/
def jsStr (a : Option String) : String :=
  match a with
  | some s => s
  | none => "undefined"

/-- Maximal run of characters satisfying `p`, with the remainder. -/
def splitRun (p : Char → Bool) (l : List Char) : List Char × List Char :=
  (l.takeWhile p, l.dropWhile p)

/-- Worker of `squashRuns`; `inRun` records whether the previous
character belonged to a run being squashed. -/
def squashRunsGo (p : Char → Bool) (r : Char) (inRun : Bool) : List Char → List Char
  | [] => []
  | c :: rest =>
    if p c then
      if inRun then squashRunsGo p r true rest
      else r :: squashRunsGo p r true rest
    else c :: squashRunsGo p r false rest

/-- Global replacement of every maximal run of characters satisfying `p`
by the single character `r` (the `replace` form used for whitespace runs
to underscore and for collapsing underscore runs). -/
def squashRuns (p : Char → Bool) (r : Char) (l : List Char) : List Char :=
  squashRunsGo p r false l

/-- Whitespace runs become a single underscore. -/
def wsToUnderscore (l : List Char) : List Char := squashRuns jsWsChar '_' l

/-- Insert an underscore between a lowercase letter directly followed by an
uppercase one (the `([a-z])([A-Z])` global rewrite of `transformTableName`;
scanning resumes after each matched pair, as the JavaScript engine does). -/
def camelSplit : List Char → List Char
  | a :: b :: rest =>
    if isLowerAZ a && isUpperAZ b then a :: '_' :: b :: camelSplit rest
    else a :: camelSplit (b :: rest)
  | l => l

/-- Whether `sub` occurs inside `l` (JavaScript `String.prototype.includes`). -/
def containsSeq (l sub : List Char) : Bool :=
  sub.isPrefixOf l ||
    match l with
    | [] => false
    | _ :: rest => containsSeq rest sub

def sIncludes (s sub : String) : Bool := containsSeq s.data sub.data

def sEndsWith (s suf : String) : Bool := suf.data.reverse.isPrefixOf s.data.reverse

/-- JavaScript `String.prototype.trim` on the ASCII text seen here. -/
def jsTrim (s : String) : String :=
  ⟨((s.data.dropWhile jsWsChar).reverse.dropWhile jsWsChar).reverse⟩

/-- First-match-only in-place update of a list element (mirrors mutating the
object returned by `Array.prototype.find`). -/
def modifyFirstBy (p : α → Bool) (f : α → α) : List α → List α
  | [] => []
  | a :: rest => if p a then f a :: rest else a :: modifyFirstBy p f rest

/-- In-place update at an index (mirrors mutating an object held inside an
array while the array itself stays in place). -/
def modifyAt : List α → Nat → (α → α) → List α
  | [], _, _ => []
  | a :: rest, 0, f => f a :: rest
  | a :: rest, n + 1, f => a :: modifyAt rest n f

/-- `Array.prototype.find` together with the index of the found element. -/
def findWithIdx (p : α → Bool) : List α → Option (Nat × α)
  | [] => none
  | a :: rest =>
    if p a then some (0, a)
    else (findWithIdx p rest).map (fun ix => (ix.1 + 1, ix.2))

/-- Insertion at an index (the `splice(i, 0, x)` form). -/
def insertAt : List α → Nat → α → List α
  | l, 0, x => x :: l
  | [], _ + 1, x => [x]
  | a :: rest, n + 1, x => a :: insertAt rest n x

/-! ## Data model

Structures for the normalized schema (section 3 of the specification) as
they are built by `schemaGenerator.service.js`.  Layout hints
(`position`), `assumptionsMade`, `nodePositions` and the date / version
bookkeeping of the `Schema` object are omitted: no embedded code path and
no claim reads them. -/

structure ColumnRefs where
  table : String
  column : String
  onDelete : String
  onUpdate : String
deriving DecidableEq

structure Column where
  name : String
  dataType : String
  isPrimaryKey : Bool
  isForeignKey : Bool
  isNullable : Bool
  isUnique : Bool := false
  defaultValue : Option String := none
  references : Option ColumnRefs := none
  isMultivalued : Bool := false
  isDerived : Bool := false
  isComposite : Bool := false
  description : String := ""
deriving DecidableEq

structure Table where
  name : String
  columns : List Column
  description : String := ""
  isWeakEntity : Bool := false
  isLookupTable : Bool := false
  isJunctionTable : Bool := false
deriving DecidableEq

/-- A processed relationship attribute (output of
`processRelationshipAttributes`; the object spread keeps `isUnique`). -/
structure RelAttr where
  name : String
  dataType : String
  isPrimaryKey : Bool := false
  isForeignKey : Bool := false
  isNullable : Bool := true
  isUnique : Bool := false
  isMultiValued : Bool := false
  isDerived : Bool := false
  description : String := ""
deriving DecidableEq

structure Relationship where
  name : String
  sourceTable : String
  sourceEntity : String
  targetTable : String
  targetEntity : String
  sourceColumn : String
  targetColumn : String
  type : String
  isIdentifying : Bool
  description : String
  sourceCardinality : Option String := none
  targetCardinality : Option String := none
  sourceParticipation : String := "PARTIAL"
  targetParticipation : String := "PARTIAL"
  attributes : List RelAttr := []
deriving DecidableEq

structure Schema where
  name : String := ""
  description : String := ""
  tables : List Table
  relationships : List Relationship
deriving DecidableEq

/-! Input shapes consumed by the normalizer (section 6 of the
specification): extraction-result entities, attributes and relationships.
Absent fields are `none` / `false` / `[]`. -/

structure AttrIn where
  name : Option String := none
  dataType : Option String := none
  isPrimaryKey : Bool := false
  isForeignKey : Bool := false
  isNullable : Option Bool := none
  isUnique : Bool := false
  defaultValue : Option String := none
  references : Option ColumnRefs := none
  isMultivalued : Bool := false
  isMultiValued : Bool := false
  isDerived : Bool := false
  isComposite : Bool := false
  description : Option String := none
deriving DecidableEq

structure EntityIn where
  name : Option String := none
  description : Option String := none
  isWeakEntity : Bool := false
  isLookupTable : Bool := false
  attributes : List AttrIn := []
deriving DecidableEq

structure RelIn where
  name : Option String := none
  action : Option String := none
  verb : Option String := none
  sourceEntity : Option String := none
  targetEntity : Option String := none
  sourceTable : Option String := none
  targetTable : Option String := none
  type : Option String := none
  isIdentifying : Bool := false
  description : Option String := none
  sourceCardinality : Option String := none
  targetCardinality : Option String := none
  sourceParticipation : Option String := none
  targetParticipation : Option String := none
  attributes : Option (List AttrIn) := none
deriving DecidableEq

structure ExtractedData where
  entities : List EntityIn := []
  relationships : List RelIn := []
deriving DecidableEq

structure SchemaOptions where
  name : String := "New Schema"
  description : String := ""
deriving DecidableEq

/-! ## Schema normalizer (`schemaGenerator.service.js`) -/

/-- `transformTableName`: snake_case the entity name, lower-case it,
replace whitespace runs by underscores, strip characters outside
lower-case alphanumerics and underscore, and prefix a leading digit with
an underscore; a falsy name degrades to "unnamed_table". -/
def transformTableName (entityName : Option String) : String :=
  match entityName with
  | none => "unnamed_table"
  | some s =>
    if s = "" then "unnamed_table"
    else
      let step1 := camelSplit s.data
      let step2 := step1.map asciiLower
      let step3 := wsToUnderscore step2
      let step4 := step3.filter (fun c => isLowerAZ c || isDigit09 c || c == '_')
      match step4 with
      | c :: rest => if isDigit09 c then ⟨'_' :: c :: rest⟩ else ⟨c :: rest⟩
      | [] => ""

/-- `inferDataType`: the ordered keyword-to-type rules (first match wins). -/
def inferDataType (attributeName : String) : String :=
  if attributeName = "" then "VARCHAR(255)"
  else
    let name := lowerStr attributeName
    if name == "id" || sEndsWith name "_id" || sEndsWith name "id" then "INTEGER"
    else if sIncludes name "uuid" || sIncludes name "guid" then "VARCHAR(36)"
    else if sIncludes name "date" || sIncludes name "time" then "TIMESTAMP"
    else if sIncludes name "price" || sIncludes name "cost" || sIncludes name "amount" ||
            sIncludes name "fee" || sIncludes name "salary" || sIncludes name "budget" then
      "DECIMAL(10,2)"
    else if sIncludes name "is_" || sIncludes name "has_" || name == "active" ||
            name == "enabled" || name == "status" || sIncludes name "_flag" then "BOOLEAN"
    else if sIncludes name "description" || sIncludes name "content" ||
            sIncludes name "text" || sIncludes name "comment" || sIncludes name "notes" then
      "TEXT"
    else if sIncludes name "email" then "VARCHAR(255)"
    else if sIncludes name "password" || sIncludes name "hash" then "VARCHAR(255)"
    else if sIncludes name "phone" || sIncludes name "fax" || sIncludes name "mobile" then
      "VARCHAR(20)"
    else if sIncludes name "url" || sIncludes name "link" || sIncludes name "website" then
      "VARCHAR(512)"
    else if sIncludes name "code" || sIncludes name "key" then "VARCHAR(50)"
    else if sIncludes name "count" || sIncludes name "quantity" || sIncludes name "number" ||
            sIncludes name "total" || sIncludes name "age" then "INTEGER"
    else if sIncludes name "percent" || sIncludes name "rate" || sIncludes name "ratio" then
      "DECIMAL(5,2)"
    else if sIncludes name "image" || sIncludes name "file" || sIncludes name "avatar" ||
            sIncludes name "picture" || sIncludes name "photo" then "VARCHAR(512)"
    else if sIncludes name "json" || sIncludes name "data" then "TEXT"
    else if sIncludes name "ip" || sIncludes name "ipv4" || sIncludes name "ipv6" then
      "VARCHAR(45)"
    else if sIncludes name "color" then "VARCHAR(20)"
    else if sIncludes name "currency" || sIncludes name "language" then "VARCHAR(10)"
    else "VARCHAR(255)"

def idColumn : Column :=
  { name := "id", dataType := "INTEGER", isPrimaryKey := true, isForeignKey := false,
    isNullable := false, isUnique := true, description := "Primary key" }

def createdAtColumn : Column :=
  { name := "created_at", dataType := "TIMESTAMP", isPrimaryKey := false,
    isForeignKey := false, isNullable := false, defaultValue := some "CURRENT_TIMESTAMP",
    description := "Creation timestamp" }

def updatedAtColumn : Column :=
  { name := "updated_at", dataType := "TIMESTAMP", isPrimaryKey := false,
    isForeignKey := false, isNullable := false, defaultValue := some "CURRENT_TIMESTAMP",
    description := "Last update timestamp" }

/-- The default column set synthesized when an entity supplies no attributes. -/
def defaultColumns : List Column :=
  [idColumn,
   { name := "name", dataType := "VARCHAR(255)", isPrimaryKey := false,
     isForeignKey := false, isNullable := false, isUnique := false,
     description := "Name field" },
   createdAtColumn, updatedAtColumn]

/-- Column name derived from an attribute (lower-cased, whitespace to
underscores, defaulting to "unnamed_column"). -/
def attrColumnName (attr : AttrIn) : String :=
  if jsTruthy attr.name then ⟨wsToUnderscore (lowerStr (jsOrO attr.name "")).data⟩
  else "unnamed_column"

/-- `generateColumnsFromAttributes`. -/
def generateColumnsFromAttributes (attributes : List AttrIn) : List Column :=
  if attributes.isEmpty then defaultColumns
  else
    attributes.map fun attr =>
      { name := attrColumnName attr
        dataType := jsOrO attr.dataType (inferDataType (jsOrO attr.name ""))
        isPrimaryKey := attr.isPrimaryKey
        isForeignKey := attr.isForeignKey
        isNullable := attr.isNullable != some false
        isUnique := attr.isUnique || attr.isPrimaryKey
        defaultValue := attr.defaultValue
        references := attr.references
        isMultivalued := attr.isMultivalued
        isDerived := attr.isDerived
        isComposite := attr.isComposite
        description := jsOrO attr.description (jsOrO attr.name "Field" ++ " column") }

def ensurePrimaryKey (cols : List Column) : List Column :=
  if cols.any (·.isPrimaryKey) then cols else idColumn :: cols

def ensureCreatedAt (cols : List Column) : List Column :=
  if cols.any (fun c => c.name == "created_at") then cols else cols ++ [createdAtColumn]

def ensureUpdatedAt (cols : List Column) : List Column :=
  if cols.any (fun c => c.name == "updated_at") then cols else cols ++ [updatedAtColumn]

/-- The per-entity table construction of `generateSchema` (basic table
structure, guaranteed primary key, guaranteed timestamp columns). -/
def buildTable (entity : EntityIn) : Table :=
  { name := transformTableName entity.name
    columns := ensureUpdatedAt (ensureCreatedAt (ensurePrimaryKey
      (generateColumnsFromAttributes entity.attributes)))
    description := jsOrO entity.description ("Table for " ++ jsStr entity.name)
    isWeakEntity := entity.isWeakEntity
    isLookupTable := entity.isLookupTable }

/-- A primary-key reference as read before adding a foreign key: either a
real column (carrying its data type) or the bare default object with name
"id" and no data type. -/
structure PkRef where
  name : String
  dataType : Option String
deriving DecidableEq

def pkRefOf (t : Table) : PkRef :=
  match t.columns.find? (·.isPrimaryKey) with
  | some c => ⟨c.name, some c.dataType⟩
  | none => ⟨"id", none⟩

/-- `addForeignKey`: push a nullable foreign-key column named after the
referenced table unless a column of that name already exists. -/
def addForeignKey (table : Table) (refTableName : String) (refCol : PkRef) : Table :=
  let fkName := lowerStr refTableName ++ "_id"
  if table.columns.any (fun c => c.name == fkName) then table
  else
    { table with
      columns := table.columns ++ [
        { name := fkName
          dataType := jsOrO refCol.dataType "INTEGER"
          isPrimaryKey := false
          isForeignKey := true
          isNullable := true
          isUnique := false
          references := some ⟨refTableName, refCol.name, "CASCADE", "CASCADE"⟩
          description := "Foreign key reference to " ++ refTableName }] }

/-- `setupForeignKeys`: place the foreign key according to the (defaulted,
upper-cased) relationship type.  The tables live in a list; mutating the
source / target object becomes an update at its index. -/
def setupForeignKeys (effType : String) (isIdentifying : Bool) (si ti : Nat)
    (srcName tgtName : String) (srcCol tgtCol : PkRef)
    (tables : List Table) : List Table :=
  let u := upperStr effType
  if u = "ONE_TO_MANY" then modifyAt tables ti (fun t => addForeignKey t srcName srcCol)
  else if u = "MANY_TO_ONE" then modifyAt tables si (fun t => addForeignKey t tgtName tgtCol)
  else if u = "ONE_TO_ONE" then
    -- both branches of the isIdentifying conditional in the source are identical
    if isIdentifying then modifyAt tables ti (fun t => addForeignKey t srcName srcCol)
    else modifyAt tables ti (fun t => addForeignKey t srcName srcCol)
  else if u = "MANY_TO_MANY" then tables
  else modifyAt tables ti (fun t => addForeignKey t srcName srcCol)

/-- `getTargetColumnName` (exact, case-sensitive type comparisons). -/
def getTargetColumnName (effType : String) (isIdentifying : Bool)
    (srcName : String) (targetTable : Table) : String :=
  let targetPkName :=
    match targetTable.columns.find? (·.isPrimaryKey) with
    | some pk => pk.name
    | none => "id"
  if effType = "ONE_TO_MANY" then lowerStr srcName ++ "_id"
  else if effType = "MANY_TO_ONE" then targetPkName
  else if effType = "ONE_TO_ONE" then
    if isIdentifying then lowerStr srcName ++ "_id" else targetPkName
  else targetPkName

/-- The name a relationship attribute receives when its own name is
missing but a description is present (lower-case, strip characters that
are not lower-case alphanumerics, underscore or whitespace, whitespace
runs to underscores, first 30 characters). -/
def derivedAttrName (desc : String) : String :=
  let kept := (lowerStr desc).data.filter
    (fun c => isLowerAZ c || isDigit09 c || c == '_' || jsWsChar c)
  ⟨(wsToUnderscore kept).take 30⟩

/-- `processRelationshipAttributes`. -/
def processRelationshipAttributes (attributes : List AttrIn) : List RelAttr :=
  attributes.map fun attr =>
    let name0 : Option String :=
      if !(jsTruthy attr.name) && jsTruthy attr.description then
        some (derivedAttrName (jsOrO attr.description ""))
      else attr.name
    { name := jsOrO name0 "unnamed_attribute"
      dataType := jsOrO attr.dataType (inferDataType (jsOrO name0 ""))
      isPrimaryKey := attr.isPrimaryKey
      isForeignKey := attr.isForeignKey
      isNullable := attr.isNullable != some false
      isUnique := attr.isUnique
      isMultiValued := attr.isMultiValued || attr.isMultivalued
      isDerived := attr.isDerived
      description := jsOrO attr.description (jsOrO name0 "Unnamed" ++ " attribute") }

/-- `transformRelationship`: resolve both endpoints (dropping the
relationship when that fails), install the foreign key, and build the
normalized relationship record.  Returns the updated table list together
with the produced relationship, if any. -/
def transformRelationship (tables : List Table) (r : RelIn) :
    List Table × Option Relationship :=
  let sEN := jsOrOpt r.sourceEntity r.sourceTable
  let tEN := jsOrOpt r.targetEntity r.targetTable
  if !(jsTruthy sEN) || !(jsTruthy tEN) then (tables, none)
  else
    match findWithIdx (fun t => lowerStr t.name == lowerStr (transformTableName sEN)) tables,
          findWithIdx (fun t => lowerStr t.name == lowerStr (transformTableName tEN)) tables with
    | some (si, st), some (ti, tt) =>
      let srcCol := pkRefOf st
      let tgtCol := pkRefOf tt
      -- setupForeignKeys writes a default into a missing relationship.type
      let effType := jsOrO r.type "ONE_TO_MANY"
      let tables1 := setupForeignKeys effType r.isIdentifying si ti st.name tt.name
        srcCol tgtCol tables
      -- the target object as it stands after the foreign-key mutation
      let tt1 := (tables1.get? ti).getD tt
      let rel : Relationship :=
        { name := jsOrO (jsOrOpt (jsOrOpt r.name r.action) r.verb)
            (if effType = "ONE_TO_MANY" then "has" else "relates_to")
          sourceTable := st.name
          sourceEntity := jsOrO sEN ""
          targetTable := tt.name
          targetEntity := jsOrO tEN ""
          sourceColumn := srcCol.name
          targetColumn := getTargetColumnName effType r.isIdentifying st.name tt1
          type := effType
          isIdentifying := r.isIdentifying
          description := jsOrO r.description
            ("Relationship between " ++ st.name ++ " and " ++ tt.name)
          sourceCardinality := jsOrNull r.sourceCardinality
          targetCardinality := jsOrNull r.targetCardinality
          sourceParticipation :=
            (match r.sourceParticipation with
             | some s => if upperStr s = "TOTAL" then "TOTAL" else "PARTIAL"
             | none => "PARTIAL")
          targetParticipation :=
            (match r.targetParticipation with
             | some s => if upperStr s = "TOTAL" then "TOTAL" else "PARTIAL"
             | none => "PARTIAL")
          attributes :=
            (match r.attributes with
             | some l => processRelationshipAttributes l
             | none => []) }
      (tables1, some rel)
    | _, _ => (tables, none)

/-- One step of the sequential `map(transformRelationship)` /
`filter(Boolean)` pass, threading the table mutations. -/
def transformStep (acc : List Table × List Relationship) (r : RelIn) :
    List Table × List Relationship :=
  match transformRelationship acc.1 r with
  | (ts, some rel) => (ts, acc.2 ++ [rel])
  | (ts, none) => (ts, acc.2)

/-- Sequential `map(transformRelationship).filter(Boolean)` threading the
table mutations. -/
def transformRelationships (tables : List Table) (rels : List RelIn) :
    List Table × List Relationship :=
  rels.foldl transformStep (tables, [])

/-- The foreign-key column unshifted for a weak entity by
`processIdentifyingRelationships`. -/
def weakEntityFkColumn (ownerName : String) (pkName pkType : String) : Column :=
  { name := lowerStr ownerName ++ "_id"
    dataType := pkType
    isPrimaryKey := true
    isForeignKey := true
    isNullable := false
    isUnique := false
    references := some ⟨ownerName, pkName, "CASCADE", "CASCADE"⟩
    description := "Foreign key reference to " ++ ownerName ++
      " (part of composite primary key for weak entity)" }

def partialIdColumn : Column :=
  { name := "partial_id", dataType := "INTEGER", isPrimaryKey := true,
    isForeignKey := false, isNullable := false, isUnique := false,
    description := "Partial key for weak entity (forms composite primary key with owner reference)" }

/-- The in-place upgrade of an existing owner foreign-key column on a
weak entity (part of the composite primary key, non-nullable). -/
def weakFkUpgrade (ownerName : String) (c : Column) : Column :=
  { c with
    isPrimaryKey := true
    isNullable := false
    description := jsOr c.description
      ("Foreign key reference to " ++ ownerName ++
       " (part of composite primary key for weak entity)") }

/-- The owner-foreign-key phase of `processIdentifyingRelationships` on
the dependent table: unshift a fresh composite-key foreign key, or
upgrade the first existing column of that name. -/
def weakFkStep (ownerName : String) (ownerCols : List Column) (dep : Table) : Table :=
  match dep.columns.find? (fun c => c.name == lowerStr ownerName ++ "_id") with
  | none =>
    let ownerPk :=
      match ownerCols.find? (·.isPrimaryKey) with
      | some c => (c.name, c.dataType)
      | none => ("id", "INTEGER")
    { dep with columns := weakEntityFkColumn ownerName ownerPk.1 ownerPk.2 :: dep.columns }
  | some _ =>
    { dep with
      columns := modifyFirstBy (fun c => c.name == lowerStr ownerName ++ "_id")
        (weakFkUpgrade ownerName) dep.columns }

/-- The partial-key phase of `processIdentifyingRelationships`: when no
primary-key column other than the owner foreign key exists, splice a
`partial_id` column in right after the foreign key (a missing foreign
key gives findIndex -1, and splice(-1 + 1 = 0, 0, key) inserts at the
front). -/
def partialKeyStep (fkName : String) (dep : Table) : Table :=
  match dep.columns.find? (fun c => c.isPrimaryKey && c.name != fkName) with
  | some _ => dep
  | none =>
    let pos :=
      match dep.columns.findIdx? (fun c => c.name == fkName) with
      | some i => i + 1
      | none => 0
    { dep with columns := insertAt dep.columns pos partialIdColumn }

/-- One step of `processIdentifyingRelationships`. -/
def processIdentifyingOne (tables : List Table) (rel : Relationship) : List Table :=
  match findWithIdx (fun t => t.name == rel.sourceTable) tables,
        findWithIdx (fun t => t.name == rel.targetTable) tables with
  | some (oi, _), some (di, _) =>
    let tables1 := modifyAt tables di (fun t => { t with isWeakEntity := true })
    let owner := ((tables1.get? oi).getD { name := "", columns := [] })
    let tables2 := modifyAt tables1 di (weakFkStep owner.name owner.columns)
    modifyAt tables2 di (partialKeyStep (lowerStr owner.name ++ "_id"))
  | _, _ => tables

/-- `processIdentifyingRelationships`. -/
def processIdentifyingRelationships (relationships : List Relationship)
    (tables : List Table) : List Table :=
  (relationships.filter (·.isIdentifying)).foldl processIdentifyingOne tables

/-- `detectLookupTables`. -/
def detectLookupTables (tables : List Table) : List Table :=
  tables.map fun table =>
    if table.isLookupTable then table
    else
      let hasIdColumn := table.columns.any (·.isPrimaryKey)
      let hasNameColumn := table.columns.any
        (fun c => (["name", "title", "label", "value"] : List String).contains (lowerStr c.name))
      let hasCodeColumn := table.columns.any
        (fun c => (["code", "key", "shortname", "abbreviation"] : List String).contains (lowerStr c.name))
      let isLookupByName := (["status", "type", "category", "state", "priority", "role",
        "permission", "gender", "country", "language"] : List String).any
        (fun k => sIncludes (lowerStr table.name) k)
      let nonSystemColumns := table.columns.filter
        (fun c => !((["id", "created_at", "updated_at"] : List String).contains c.name))
      if hasIdColumn && (hasNameColumn || hasCodeColumn) &&
          (isLookupByName || nonSystemColumns.length ≤ 3) then
        { table with
          isLookupTable := true
          description :=
            if table.description == "" || table.description == "Table for " ++ table.name then
              "Lookup table for " ++
                (⟨table.name.data.map (fun c => if c == '_' then ' ' else c)⟩ : String) ++ " values"
            else table.description }
      else table

/-- The pure core of `generateSchema` (logging, date stamps, layout
positions and the version counter omitted). -/
def generateSchema (extractedData : ExtractedData) (options : SchemaOptions) : Schema :=
  let tables0 := extractedData.entities.map buildTable
  let trOut := transformRelationships tables0 extractedData.relationships
  let tables2 := processIdentifyingRelationships trOut.2 trOut.1
  let tables3 := detectLookupTables tables2
  { name := options.name
    description := options.description
    tables := tables3
    relationships := trOut.2 }

/-! ## SQL generator (`sqlGenerator.service.js`) -/

/-- The junction table synthesized by `preprocessSchema` for a
MANY_TO_MANY relationship: composite primary key made of the two
foreign-key columns referencing the endpoint primary keys, the
relationship-owned attributes as plain columns, and standard timestamps. -/
def junctionTableFor (sourceTable targetTable : Table)
    (sourcePK targetPK : String × String) (relationship : Relationship) : Table :=
  { name := sourceTable.name ++ "_" ++ targetTable.name
    description := "Junction table for many-to-many relationship between " ++
      sourceTable.name ++ " and " ++ targetTable.name
    columns :=
      [{ name := sourceTable.name ++ "_" ++ sourcePK.1
         dataType := sourcePK.2
         isPrimaryKey := true
         isForeignKey := true
         isNullable := false
         isUnique := false
         references := some ⟨sourceTable.name, sourcePK.1, "CASCADE", "CASCADE"⟩
         description := "Foreign key reference to " ++ sourceTable.name },
       { name := targetTable.name ++ "_" ++ targetPK.1
         dataType := targetPK.2
         isPrimaryKey := true
         isForeignKey := true
         isNullable := false
         isUnique := false
         references := some ⟨targetTable.name, targetPK.1, "CASCADE", "CASCADE"⟩
         description := "Foreign key reference to " ++ targetTable.name }] ++
      relationship.attributes.map (fun attr =>
        { name := attr.name
          dataType := jsOr attr.dataType "VARCHAR(255)"
          isPrimaryKey := false
          isForeignKey := false
          isNullable := attr.isNullable
          isUnique := attr.isUnique
          description := jsOr attr.description (attr.name ++ " attribute") }) ++
      [createdAtColumn, updatedAtColumn]
    isJunctionTable := true }

/-- The ONE_TO_MANY replacement relationship from the source table to the
junction table. -/
def sourceToJunctionRel (sourceTable : Table) (sourcePK : String × String)
    (relationship : Relationship) (junctionName : String) : Relationship :=
  { name := relationship.name ++ "_source"
    sourceTable := sourceTable.name
    sourceEntity := relationship.sourceEntity
    targetTable := junctionName
    targetEntity := junctionName
    sourceColumn := sourcePK.1
    targetColumn := sourceTable.name ++ "_" ++ sourcePK.1
    type := "ONE_TO_MANY"
    isIdentifying := true
    description := "One-to-many relationship from " ++ sourceTable.name ++
      " to junction table"
    sourceCardinality := some "1..1"
    targetCardinality := some "0..*"
    sourceParticipation := "PARTIAL"
    targetParticipation := "TOTAL" }

/-- The ONE_TO_MANY replacement relationship from the target table to the
junction table. -/
def targetToJunctionRel (targetTable : Table) (targetPK : String × String)
    (relationship : Relationship) (junctionName : String) : Relationship :=
  { name := relationship.name ++ "_target"
    sourceTable := targetTable.name
    sourceEntity := relationship.targetEntity
    targetTable := junctionName
    targetEntity := junctionName
    sourceColumn := targetPK.1
    targetColumn := targetTable.name ++ "_" ++ targetPK.1
    type := "ONE_TO_MANY"
    isIdentifying := true
    description := "One-to-many relationship from " ++ targetTable.name ++
      " to junction table"
    sourceCardinality := some "1..1"
    targetCardinality := some "0..*"
    sourceParticipation := "PARTIAL"
    targetParticipation := "TOTAL" }

/-- The body of the forEach of `preprocessSchema` for one MANY_TO_MANY
relationship of the snapshot: synthesize and push the junction table
(unless its name is already taken or an endpoint is missing) and splice
the two replacement relationships over the matching MANY_TO_MANY entry. -/
def preprocessOne (schema : Schema) (relationship : Relationship) : Schema :=
  match schema.tables.find? (fun t => t.name == relationship.sourceTable),
        schema.tables.find? (fun t => t.name == relationship.targetTable) with
  | some sourceTable, some targetTable =>
    let sourcePK :=
      match sourceTable.columns.find? (·.isPrimaryKey) with
      | some c => (c.name, c.dataType)
      | none => ("id", "INTEGER")
    let targetPK :=
      match targetTable.columns.find? (·.isPrimaryKey) with
      | some c => (c.name, c.dataType)
      | none => ("id", "INTEGER")
    let junctionTableName := sourceTable.name ++ "_" ++ targetTable.name
    if schema.tables.any (fun t => t.name == junctionTableName) then schema
    else
      let junctionTable := junctionTableFor sourceTable targetTable sourcePK targetPK relationship
      let sourceToJunction := sourceToJunctionRel sourceTable sourcePK relationship junctionTable.name
      let targetToJunction := targetToJunctionRel targetTable targetPK relationship junctionTable.name
      let rels :=
        match schema.relationships.findIdx? (fun rel =>
          rel.sourceTable == relationship.sourceTable &&
          rel.targetTable == relationship.targetTable &&
          rel.type == "MANY_TO_MANY") with
        | some relIndex =>
          schema.relationships.take relIndex ++ [sourceToJunction, targetToJunction] ++
            schema.relationships.drop (relIndex + 1)
        | none => schema.relationships ++ [sourceToJunction, targetToJunction]
      { schema with tables := schema.tables ++ [junctionTable], relationships := rels }
  | _, _ => schema

/-- `preprocessSchema`: rewrite every MANY_TO_MANY relationship of the
snapshot taken up front into a junction table plus two ONE_TO_MANY
relationships.  The `dialect` argument is accepted and unused, as in the
source. -/
def preprocessSchema (schema : Schema) (_dialect : String) : Schema :=
  (schema.relationships.filter (fun rel => rel.type == "MANY_TO_MANY")).foldl
    preprocessOne schema

/-- One extracted foreign-key constraint (`getForeignKeyConstraints`). -/
structure FkConstraint where
  columnName : String
  referenceTable : String
  referenceColumn : String
  onDelete : String
  onUpdate : String
  constraintName : String
deriving DecidableEq

/-- `getForeignKeyConstraints` (the unused `schema` parameter of the
source is dropped). -/
def getForeignKeyConstraints (table : Table) : List FkConstraint :=
  (table.columns.filter (fun c => c.isForeignKey && c.references.isSome)).map fun c =>
    match c.references with
    | some r =>
      { columnName := c.name
        referenceTable := r.table
        referenceColumn := r.column
        onDelete := jsOr r.onDelete "NO ACTION"
        onUpdate := jsOr r.onUpdate "NO ACTION"
        constraintName := "fk_" ++ table.name ++ "_" ++ c.name }
    | none =>
      { columnName := c.name, referenceTable := "", referenceColumn := "",
        onDelete := "NO ACTION", onUpdate := "NO ACTION", constraintName := "" }

/-- The closed set of dialect backends held by the generator registry. -/
inductive Dialect
  | mysql
  | postgresql
  | sqlite
  | sqlserver
deriving DecidableEq

/-- `getDialectGenerator`: look the lower-cased dialect name up in the
registry, falling back to the MySQL backend. -/
def getDialectGenerator (dialect : String) : Dialect :=
  let normalizedDialect := lowerStr dialect
  if normalizedDialect = "mysql" then Dialect.mysql
  else if normalizedDialect = "postgresql" then Dialect.postgresql
  else if normalizedDialect = "sqlite" then Dialect.sqlite
  else if normalizedDialect = "sqlserver" then Dialect.sqlserver
  else Dialect.mysql

/-- Capability record of one dialect backend; optional capabilities are
`Option`, mirroring the duck-typed method-presence checks of
`generateSQL`. -/
structure DialectGen where
  headerComment : Schema → String
  generateDropStatements : Option (Schema → List String)
  generateEnumTypes : Option (Schema → List String)
  createTableStatement : Table → Schema → String
  addForeignKeyStatement : String → FkConstraint → String
  createIndexStatements : Table → Schema → List String
  createViewStatements : Option (Schema → List String)
  createStoredProcedures : Option (Schema → List String)
  createTriggerStatements : Option (Schema → List String)
  generateSeedData : Option (Table → List String)
  footerComment : Option (Schema → String)

/-- Modelled from the spec: the four dialect backends
(`dialects/mysql.generator.js` and friends) are not part of the provided
sources; per sections 4.2 and 5 of the specification they are pure
string-producing functions of the schema they receive and never mutate
it, which this model realises with simple representative statement text.
The exact statement text is irrelevant to the claims settled here. -/
def dialectImpl : Dialect → DialectGen
  | Dialect.mysql =>
    { headerComment := fun s => "-- MySQL schema: " ++ s.name
      generateDropStatements :=
        some (fun s => s.tables.map (fun t => "DROP TABLE IF EXISTS " ++ t.name ++ ";"))
      generateEnumTypes := none
      createTableStatement := fun t _ => "CREATE TABLE " ++ t.name ++ " (...);"
      addForeignKeyStatement := fun tn fk =>
        "ALTER TABLE " ++ tn ++ " ADD CONSTRAINT " ++ fk.constraintName ++ ";"
      createIndexStatements := fun t _ =>
        (t.columns.filter (·.isForeignKey)).map
          (fun c => "CREATE INDEX idx_" ++ t.name ++ "_" ++ c.name ++ " ON " ++ t.name ++ ";")
      createViewStatements := some (fun _ => [])
      createStoredProcedures := some (fun _ => [])
      createTriggerStatements := some (fun _ => [])
      generateSeedData := some (fun t => ["INSERT INTO " ++ t.name ++ " VALUES (...);"])
      footerComment := some (fun _ => "-- End of script") }
  | Dialect.postgresql =>
    { headerComment := fun s => "-- PostgreSQL schema: " ++ s.name
      generateDropStatements :=
        some (fun s => s.tables.map (fun t => "DROP TABLE IF EXISTS " ++ t.name ++ " CASCADE;"))
      generateEnumTypes := some (fun _ => [])
      createTableStatement := fun t _ => "CREATE TABLE " ++ t.name ++ " (...);"
      addForeignKeyStatement := fun tn fk =>
        "ALTER TABLE " ++ tn ++ " ADD CONSTRAINT " ++ fk.constraintName ++ ";"
      createIndexStatements := fun t _ =>
        (t.columns.filter (·.isForeignKey)).map
          (fun c => "CREATE INDEX idx_" ++ t.name ++ "_" ++ c.name ++ " ON " ++ t.name ++ ";")
      createViewStatements := some (fun _ => [])
      createStoredProcedures := some (fun _ => [])
      createTriggerStatements := some (fun _ => [])
      generateSeedData := some (fun t => ["INSERT INTO " ++ t.name ++ " VALUES (...);"])
      footerComment := some (fun _ => "-- End of script") }
  | Dialect.sqlite =>
    { headerComment := fun s => "-- SQLite schema: " ++ s.name
      generateDropStatements :=
        some (fun s => s.tables.map (fun t => "DROP TABLE IF EXISTS " ++ t.name ++ ";"))
      generateEnumTypes := none
      createTableStatement := fun t _ => "CREATE TABLE " ++ t.name ++ " (...);"
      addForeignKeyStatement := fun tn fk =>
        "-- SQLite inline FK for " ++ tn ++ " " ++ fk.columnName
      createIndexStatements := fun t _ =>
        (t.columns.filter (·.isForeignKey)).map
          (fun c => "CREATE INDEX idx_" ++ t.name ++ "_" ++ c.name ++ " ON " ++ t.name ++ ";")
      createViewStatements := none
      createStoredProcedures := none
      createTriggerStatements := none
      generateSeedData := some (fun t => ["INSERT INTO " ++ t.name ++ " VALUES (...);"])
      footerComment := none }
  | Dialect.sqlserver =>
    { headerComment := fun s => "-- SQL Server schema: " ++ s.name
      generateDropStatements :=
        some (fun s => s.tables.map (fun t => "DROP TABLE IF EXISTS " ++ t.name ++ ";"))
      generateEnumTypes := none
      createTableStatement := fun t _ => "CREATE TABLE " ++ t.name ++ " (...);"
      addForeignKeyStatement := fun tn fk =>
        "ALTER TABLE " ++ tn ++ " ADD CONSTRAINT " ++ fk.constraintName ++ ";"
      createIndexStatements := fun t _ =>
        (t.columns.filter (·.isForeignKey)).map
          (fun c => "CREATE INDEX idx_" ++ t.name ++ "_" ++ c.name ++ " ON " ++ t.name ++ ";")
      createViewStatements := some (fun _ => [])
      createStoredProcedures := some (fun _ => [])
      createTriggerStatements := some (fun _ => [])
      generateSeedData := some (fun t => ["INSERT INTO " ++ t.name ++ " VALUES (...);"])
      footerComment := some (fun _ => "GO") }

/-- Modelled from the spec: the `sql-formatter` dependency is an external
best-effort presentation layer (section 4.2: if pretty-printing fails the
unformatted concatenation is returned); the model keeps the text
unchanged.  Formatting is irrelevant to the claims settled here. -/
def formatSQL (_dialect : String) (text : String) : String := text

/-- The statement-assembly pipeline of `generateSQL`, as a function of
the caller's schema (read only by the header comment) and the
preprocessed working copy. -/
def generateSQLStatements (schema processed : Schema) (dialect : String) : String :=
  let generator := dialectImpl (getDialectGenerator dialect)
  let sHeader := [generator.headerComment schema]
  let sDrop :=
    match generator.generateDropStatements with
    | some f => f processed
    | none => []
  let sEnum :=
    if dialect == "postgresql" then
      match generator.generateEnumTypes with
      | some f => f processed
      | none => []
    else []
  let sTables := processed.tables.map (fun t => generator.createTableStatement t processed)
  let sAlter :=
    if dialect == "sqlserver" || dialect == "sqlite" then
      (processed.tables.map (fun t =>
        (getForeignKeyConstraints t).map (generator.addForeignKeyStatement t.name))).flatten
    else []
  let sIndex := (processed.tables.map (fun t => generator.createIndexStatements t processed)).flatten
  let sViews :=
    match generator.createViewStatements with
    | some f => f processed
    | none => []
  let sProcs :=
    match generator.createStoredProcedures with
    | some f => f processed
    | none => []
  let sTrigs :=
    match generator.createTriggerStatements with
    | some f => f processed
    | none => []
  let sSeed :=
    ((processed.tables.filter (·.isLookupTable)).map (fun t =>
      match generator.generateSeedData with
      | some f => f t
      | none => [])).flatten
  let sFooter :=
    match generator.footerComment with
    | some f => [f processed]
    | none => []
  formatSQL dialect (String.intercalate "\n\n"
    (sHeader ++ sDrop ++ sEnum ++ sTables ++ sAlter ++ sIndex ++
     sViews ++ sProcs ++ sTrigs ++ sSeed ++ sFooter))

/-- An object store of schema objects; callers hold references (indices)
into it.  This makes the aliasing of `generateSQL` explicit: the deep
copy allocates a fresh reference and all junction-table mutations target
that fresh reference only. -/
abbrev SchemaStore := List Schema

def readSchema (store : SchemaStore) (r : Nat) : Option Schema := store.get? r

/-- `generateSQL` with the caller's object store made explicit: reading
the caller's schema, allocating the deep copy
(`JSON.parse(JSON.stringify(schema))`) as a fresh store entry, applying
the junction-table rewrite to that entry only, and assembling the
statement text.  The returned store is the caller-visible state after
the call. -/
def generateSQL (store : SchemaStore) (r : Nat) (dialect : String) :
    SchemaStore × String :=
  match readSchema store r with
  | none => (store, "")
  | some schema =>
    -- the fresh entry holds the deep copy after the in-place forEach of
    -- preprocessSchema has run on it
    let store1 := store ++ [preprocessSchema schema dialect]
    (store1, generateSQLStatements schema (preprocessSchema schema dialect) dialect)

/-! ## Mermaid diagram generator

The repository carries two copies of the `MermaidGeneratorService` class:
one in `controllers/export.controller.mermaid.js` (namespace
`MermaidCtrl` below) and one in the services file (namespace
`MermaidSvc` below).  They differ in the sanitizer, in the
relationship-type spellings they recognise, and in the auto-formatter. -/

/-- A relationship object as consumed by the Mermaid generator. -/
structure MCardinality where
  source : Option String := none
  target : Option String := none
deriving DecidableEq

structure MRelationship where
  name : Option String := none
  sourceEntity : Option String := none
  targetEntity : Option String := none
  sourceTable : Option String := none
  targetTable : Option String := none
  type : Option String := none
  cardinality : Option MCardinality := none
deriving DecidableEq

namespace MermaidCtrl

/-- `sanitizeName` of the controller copy: non-word characters become
underscores, runs of two or more underscores collapse to one. -/
def sanitizeName (name : Option String) : String :=
  if jsTruthy name then
    let s := jsOrO name ""
    -- replace non-word characters by underscores, then collapse runs of
    -- two or more underscores (a run of one is re-emitted unchanged, so
    -- squashing every run gives the same text)
    ⟨squashRuns (fun c => c == '_') '_'
      (s.data.map (fun c => if jsWordChar c then c else '_'))⟩
  else "unnamed"

/-- `generateRelationshipDefinition` of the controller copy: cardinality
override (with zero-or-one forms), else lower-case hyphenated type names
only, else the double-bar defaults; emitted without spaces around the
dash operator. -/
def generateRelationshipDefinition (relationship : MRelationship) : String :=
  if !(jsTruthy relationship.sourceEntity) || !(jsTruthy relationship.targetEntity) then ""
  else
    let sourceEntity := lowerStr (sanitizeName
      (jsOrOpt relationship.sourceEntity relationship.sourceTable))
    let targetEntity := lowerStr (sanitizeName
      (jsOrOpt relationship.targetEntity relationship.targetTable))
    let relationshipName := jsOrO relationship.name "relates"
    let cards :=
      match relationship.cardinality with
      | some cardinality =>
        let sc :=
          if cardinality.source == some "many" then "\x7do"
          else if cardinality.source == some "one" then "||"
          else if cardinality.source == some "zero-or-one" then "|o"
          else "||"
        let tc :=
          if cardinality.target == some "many" then "o\x7b"
          else if cardinality.target == some "one" then "||"
          else if cardinality.target == some "zero-or-one" then "o|"
          else "||"
        (sc, tc)
      | none =>
        if jsTruthy relationship.type then
          let t := jsOrO relationship.type ""
          if t = "one-to-many" then ("||", "o\x7b")
          else if t = "many-to-one" then ("\x7do", "||")
          else if t = "many-to-many" then ("\x7do", "o\x7b")
          else if t = "one-to-one" then ("||", "||")
          else ("||", "||")
        else ("||", "||")
    "    " ++ sourceEntity ++ " " ++ cards.1 ++ "--" ++ cards.2 ++ " " ++
      targetEntity ++ " : \"" ++ relationshipName ++ "\"\n"

end MermaidCtrl

namespace MermaidSvc

/-- JavaScript reserved keywords that collide with Mermaid identifiers. -/
def reservedKeywords : List String :=
  ["class", "break", "case", "catch", "const", "continue", "debugger",
   "default", "delete", "do", "else", "export", "extends", "finally",
   "for", "function", "if", "import", "in", "instanceof", "new", "return",
   "super", "switch", "this", "throw", "try", "typeof", "var", "void",
   "while", "with", "yield"]

/-- Strip one leading underscore (the `replace(/^_/, '')` step). -/
def stripLeadingUnderscore : List Char → List Char
  | '_' :: rest => rest
  | l => l

/-- `sanitizeName` of the services copy: non-word characters become
underscores; when an upper-case letter is present, every upper-case
letter becomes an underscore plus its lower-case form and one leading
underscore is stripped; reserved keywords get an `_entity` suffix. -/
def sanitizeName (name : Option String) : String :=
  if jsTruthy name then
    let s := jsOrO name ""
    let sanitized := s.data.map (fun c => if jsWordChar c then c else '_')
    let sanitized :=
      if sanitized.any isUpperAZ then
        stripLeadingUnderscore
          ((sanitized.map (fun c =>
            if isUpperAZ c then ['_', asciiLower c] else [c])).flatten)
      else sanitized
    let out : String := ⟨sanitized⟩
    if reservedKeywords.contains (lowerStr out) then out ++ "_entity" else out
  else "unnamed"

/-- The `replace(/"/g, '\\"')` escaping of the relationship label. -/
def escapeQuotes (s : String) : String :=
  ⟨(s.data.map (fun c => if c == '"' then ['\\', '"'] else [c])).flatten⟩

/-- The cardinality pair taken from an explicit per-relationship
cardinality object (the services copy knows only many / one). -/
def cardinalityOverride (cardinality : MCardinality) : String × String :=
  let sc :=
    if cardinality.source == some "many" then "\x7do"
    else if cardinality.source == some "one" then "||"
    else "||"
  let tc :=
    if cardinality.target == some "many" then "o\x7b"
    else if cardinality.target == some "one" then "||"
    else "||"
  (sc, tc)

/-- The cardinality pair derived from the relationship type (the services
copy accepts both the lower-case hyphenated and the upper-case underscore
spellings), defaulting to the double bars. -/
def typeCardinalities (type : Option String) : String × String :=
  if jsTruthy type then
    let t := jsOrO type ""
    if t = "one-to-many" ∨ t = "ONE_TO_MANY" then ("||", "o\x7b")
    else if t = "many-to-one" ∨ t = "MANY_TO_ONE" then ("\x7do", "||")
    else if t = "many-to-many" ∨ t = "MANY_TO_MANY" then ("\x7do", "o\x7b")
    else if t = "one-to-one" ∨ t = "ONE_TO_ONE" then ("||", "||")
    else ("||", "||")
  else ("||", "||")

/-- `generateRelationshipDefinition` of the services copy: cardinality
override (many / one only), else the type-based mapping accepting both
the lower-case hyphenated and the upper-case underscore spellings, else
the double-bar defaults; emitted with spaces around the dash operator.
The special user-message branch of the source returns a string identical
to the general return and is kept for fidelity. -/
def generateRelationshipDefinition (relationship : MRelationship) : String :=
  if !(jsTruthy relationship.sourceEntity) || !(jsTruthy relationship.targetEntity) then ""
  else
    let sourceEntity := sanitizeName (jsOrOpt relationship.sourceEntity relationship.sourceTable)
    let targetEntity := sanitizeName (jsOrOpt relationship.targetEntity relationship.targetTable)
    let relationshipName := escapeQuotes (jsOrO relationship.name "relates")
    let sourceEntityLowerCase := lowerStr sourceEntity
    let targetEntityLowerCase := lowerStr targetEntity
    let cards :=
      match relationship.cardinality with
      | some cardinality => cardinalityOverride cardinality
      | none => typeCardinalities relationship.type
    let line := "    " ++ sourceEntityLowerCase ++ " " ++ cards.1 ++ " -- " ++ cards.2 ++
      " " ++ targetEntityLowerCase ++ " : \"" ++ relationshipName ++ "\"\n"
    if sIncludes (lowerStr relationshipName) "message" &&
        sourceEntityLowerCase == "user" && targetEntityLowerCase == "message" &&
        sIncludes (lowerStr relationshipName) "receive" then
      line
    else line

/-! ### The auto-formatter (`autoFormatMermaidSyntax` of the services copy)

Each `String.prototype.replace` with a global pattern is realised by
`gsub` below together with a scanner for its particular pattern.  The
scanner receives the text from the candidate match position onward and
reports the number of characters matched beyond the first one together
with the replacement text; `gsub` advances one character when the
scanner declines, exactly like the regex engine's search loop, and
resumes after the replaced segment on success.  In every pattern the
quantified pieces are single-character classes, and adjacent pieces draw
from disjoint classes, so maximal-munch scanning realises the engine's
greedy backtracking; the two label patterns, where the quantifier
boundary is genuinely ambiguous, enumerate the `\s*` length from the
greedy maximum downward. -/

/-- Worker of `gsub` with explicit fuel (every step of the engine's
search loop consumes at least one character, so fuel equal to the text
length is always sufficient; the zero-fuel branch is unreachable). -/
def gsubGo (m : List Char → Option (Nat × List Char)) : Nat → List Char → List Char
  | _, [] => []
  | 0, l => l
  | fuel + 1, c :: rest =>
    match m (c :: rest) with
    | some (extra, rep) => rep ++ gsubGo m fuel (rest.drop extra)
    | none => c :: gsubGo m fuel rest

/-- Global-replace driver: `m` inspects the text at the current position
and yields (extra characters consumed beyond the first, replacement). -/
def gsub (m : List Char → Option (Nat × List Char)) (l : List Char) : List Char :=
  gsubGo m l.length l

/-- Scanner for the first rewrite: three word runs separated by
whitespace runs, optional whitespace, a closing brace and a word run;
replaced by the attribute text, an indented closing brace, a blank line
and the indented trailing word. -/
def matchJunk1 (l : List Char) : Option (Nat × List Char) :=
  let (w1, r1) := splitRun jsWordChar l
  if w1.isEmpty then none else
  let (s1, r2) := splitRun jsWsChar r1
  if s1.isEmpty then none else
  let (w2, r3) := splitRun jsWordChar r2
  if w2.isEmpty then none else
  let (s2, r4) := splitRun jsWsChar r3
  if s2.isEmpty then none else
  let (w3, r5) := splitRun jsWordChar r4
  if w3.isEmpty then none else
  let (s3, r6) := splitRun jsWsChar r5
  match r6 with
  | '\x7d' :: r7 =>
    let (w4, _) := splitRun jsWordChar r7
    if w4.isEmpty then none else
    let cap1 := w1 ++ s1 ++ w2 ++ s2 ++ w3
    some (cap1.length + s3.length + w4.length,
      cap1 ++ ("\n    \x7d\n\n    ").data ++ w4)
  | _ => none

/-- Scanner for the second rewrite: a closing brace, whitespace, a word
run and whitespace followed by an opening brace; replaced by the brace, a
blank line and the indented entity header. -/
def matchBraceEntity (l : List Char) : Option (Nat × List Char) :=
  match l with
  | '\x7d' :: r1 =>
    let (s1, r2) := splitRun jsWsChar r1
    let (w, r3) := splitRun jsWordChar r2
    if w.isEmpty then none else
    let (s2, r4) := splitRun jsWsChar r3
    match r4 with
    | '\x7b' :: _ =>
      some (s1.length + w.length + s2.length + 1,
        ("\x7d\n\n    ").data ++ w ++ [' ', '\x7b'])
    | _ => none
  | _ => none

/-- Parse one cardinality symbol of the alternation (double bar, brace-o,
o-brace), in the alternation's order. -/
def parseCard : List Char → Option (List Char × List Char)
  | '|' :: '|' :: r => some (['|', '|'], r)
  | '\x7d' :: 'o' :: r => some (['\x7d', 'o'], r)
  | 'o' :: '\x7b' :: r => some (['o', '\x7b'], r)
  | _ => none

/-- Scanner for the dash-spacing rewrites: a cardinality symbol, the
given dash text, a cardinality symbol; replaced with single spaces around
a double dash. -/
def matchCardDash (dash : List Char) (l : List Char) : Option (Nat × List Char) :=
  match parseCard l with
  | some (c1, r1) =>
    if dash.isPrefixOf r1 then
      match parseCard (r1.drop dash.length) with
      | some (c2, _) =>
        some (c1.length + dash.length + c2.length - 1, c1 ++ (" -- ").data ++ c2)
      | none => none
    else none
  | none => none

/-- Backtracking step of the first label rewrite: try the whitespace-run
length `k` (greedy, so from the maximum downward), requiring a nonempty
quote-free and newline-free capture that reaches the end of the line. -/
def matchLabelQuoteK : Nat → List Char → Option (Nat × List Char)
  | k, r1 =>
    let afterWs := r1.drop k
    let (grp, rest) := splitRun (fun c => c != '"' && c != '\n') afterWs
    if !grp.isEmpty && (rest.isEmpty || rest.head? == some '\n') then
      some (k + grp.length, (':' :: ' ' :: '"' :: grp) ++ ['"'])
    else
      match k with
      | 0 => none
      | k' + 1 => matchLabelQuoteK k' r1

/-- Scanner for the first label rewrite: a colon, whitespace and an
unquoted label running to the end of the line become a quoted label. -/
def matchLabelQuote (l : List Char) : Option (Nat × List Char) :=
  match l with
  | ':' :: r1 => matchLabelQuoteK (r1.takeWhile jsWsChar).length r1
  | _ => none

/-- Backtracking step of the label-normalisation rewrite. -/
def matchLabelNormK : Nat → List Char → Option (Nat × List Char)
  | k, r1 =>
    let attempt :=
      match r1.drop k with
      | '"' :: r2 =>
        let (grp, rest) := splitRun (fun c => c != '"') r2
        (match rest with
         | '"' :: rest2 =>
           if rest2.isEmpty || rest2.head? == some '\n' then
             some (k + grp.length + 2, (':' :: ' ' :: '"' :: grp) ++ ['"'])
           else none
         | _ => none)
      | _ => none
    match attempt with
    | some res => some res
    | none =>
      match k with
      | 0 => none
      | k' + 1 => matchLabelNormK k' r1

/-- Scanner for the label-normalisation rewrite: a colon, whitespace and
a quoted label at the end of the line are re-emitted with one space. -/
def matchLabelNorm (l : List Char) : Option (Nat × List Char) :=
  match l with
  | ':' :: r1 => matchLabelNormK (r1.takeWhile jsWsChar).length r1
  | _ => none

/-- Scanner for the brace-o rewrite of the source, whose replacement
equals its pattern (a literal no-op kept for fidelity). -/
def matchBraceO (l : List Char) : Option (Nat × List Char) :=
  match l with
  | '\x7d' :: 'o' :: _ => some (1, ['\x7d', 'o'])
  | _ => none

/-- Scanner for the o-brace rewrite of the source, likewise an identical
replacement. -/
def matchOBrace (l : List Char) : Option (Nat × List Char) :=
  match l with
  | 'o' :: '\x7b' :: _ => some (1, ['o', '\x7b'])
  | _ => none

/-- JavaScript `trim` on a character list. -/
def trimCL (l : List Char) : List Char :=
  ((l.dropWhile jsWsChar).reverse.dropWhile jsWsChar).reverse

/-- Test of the entity-header pattern (optional whitespace, a word run,
whitespace, an opening brace, end of string). -/
def testEntityHeader (l0 : List Char) : Bool :=
  let l := l0.dropWhile jsWsChar
  let (w, r1) := splitRun jsWordChar l
  if w.isEmpty then false else
  let (s1, r2) := splitRun jsWsChar r1
  if s1.isEmpty then false else
  r2 == ['\x7b']

/-- Test of the attribute-prefix pattern (optional whitespace, a word
run, whitespace, a word character). -/
def testAttrPrefix (l0 : List Char) : Bool :=
  let l := l0.dropWhile jsWsChar
  let (w, r1) := splitRun jsWordChar l
  if w.isEmpty then false else
  let (s1, r2) := splitRun jsWsChar r1
  if s1.isEmpty then false else
  match r2 with
  | c :: _ => jsWordChar c
  | [] => false

/-- Test of the open-brace-at-end pattern on the previous line. -/
def testOpenBraceEnd (l : List Char) : Bool :=
  (l.reverse.dropWhile jsWsChar).head? == some '\x7b'

/-- Characters matched by the regex dot (no newline, no carriage return). -/
def dotChar (c : Char) : Bool := c != '\n' && c != '\r'

/-- Search, across dot characters, for a cardinality symbol followed by
whitespace and a word character. -/
def relTail2 : List Char → Bool
  | [] => false
  | c :: rest =>
    (match parseCard (c :: rest) with
     | some (_, r) =>
       let (s2, r2) := splitRun jsWsChar r
       if s2.isEmpty then false
       else
         match r2 with
         | d :: _ => jsWordChar d
         | [] => false
     | none => false) ||
      (dotChar c && relTail2 rest)

/-- Search, across dot characters, for a double dash followed by the tail
of the relationship-line pattern. -/
def relTail1 : List Char → Bool
  | [] => false
  | c :: rest =>
    (match c, rest with
     | '-', '-' :: r2 => relTail2 r2
     | _, _ => false) ||
      (dotChar c && relTail1 rest)

/-- Test of the relationship-line pattern: optional whitespace, a word
run, whitespace, a cardinality symbol, then (across arbitrary dot
characters) a double dash, a cardinality symbol, whitespace and a word
character. -/
def testRelLine (l0 : List Char) : Bool :=
  let l := l0.dropWhile jsWsChar
  let (w, r1) := splitRun jsWordChar l
  if w.isEmpty then false else
  let (s1, r2) := splitRun jsWsChar r1
  if s1.isEmpty then false else
  match parseCard r2 with
  | some (_, r3) => relTail1 r3
  | none => false

/-- The three per-line dash-spacing replaces of the relationship branch. -/
def lineDashFix (l : List Char) : List Char :=
  let l1 := gsub (matchCardDash ("--").data) l
  let l2 := gsub (matchCardDash ['-']) l1
  gsub (matchCardDash ['—']) l2

/-- Split a text at newline characters (JavaScript `split('\n')`). -/
def splitLinesCL : List Char → List (List Char)
  | [] => [[]]
  | c :: rest =>
    if c == '\n' then [] :: splitLinesCL rest
    else
      match splitLinesCL rest with
      | [] => [[c]]
      | line :: more => (c :: line) :: more

/-- Join lines with newline characters (JavaScript `join('\n')`). -/
def joinLinesCL : List (List Char) → List Char
  | [] => []
  | [l] => l
  | l :: rest => l ++ '\n' :: joinLinesCL rest

/-- The body of the indentation loop for one line; `prev` is the already
processed previous line (the source reads `lines[i - 1]` after earlier
iterations have rewritten it in place). -/
def autoFormatLine (prev : Option (List Char)) (line0 : List Char) : List Char :=
  let ind4 := ("    ").data
  let ind8 := ("        ").data
  let line1 :=
    if testEntityHeader (trimCL line0) && !(ind4.isPrefixOf line0) then
      ind4 ++ trimCL line0
    else line0
  let line2 :=
    if trimCL line1 == ['\x7d'] && !(ind4.isPrefixOf line1) then
      ind4 ++ trimCL line1
    else line1
  let line3 :=
    if testAttrPrefix (trimCL line2) && !(ind8.isPrefixOf line2) then
      match prev with
      | some p => if testOpenBraceEnd p then ind8 ++ trimCL line2 else line2
      | none => line2
    else line2
  if testRelLine (trimCL line3) then
    lineDashFix (if !(ind4.isPrefixOf line3) then ind4 ++ trimCL line3 else line3)
  else line3

/-- The indentation loop over all lines. -/
def autoFormatLines : Option (List Char) → List (List Char) → List (List Char)
  | _, [] => []
  | prev, l :: rest =>
    let l1 := autoFormatLine prev l
    l1 :: autoFormatLines (some l1) rest

/-- `autoFormatMermaidSyntax` of the services copy (renamed, without the
final noun of the source name): the six textual repair stages, in source
order. -/
def autoFormatMermaid (mermaid : String) : String :=
  if mermaid = "" then mermaid
  else
    let f1 := gsub matchJunk1 mermaid.data
    let f2 := gsub matchBraceEntity f1
    let f3 := gsub (matchCardDash ("--").data) f2
    let f4 := gsub (matchCardDash ['-']) f3
    let f5 := gsub (matchCardDash ['—']) f4
    let f6 := gsub matchLabelQuote f5
    let f7 := gsub matchLabelNorm f6
    let f8 := gsub matchBraceO f7
    let f9 := gsub matchOBrace f8
    ⟨joinLinesCL (autoFormatLines none (splitLinesCL f9))⟩

end MermaidSvc

/-! ## Documentation generator (`documentation.service` file)

The claim to settle is that the Markdown renderer and the HTML renderer
derive the same factual content from the same schema fields.  For each
renderer a fact-extraction function is transcribed from the cell
expressions of that renderer (the way each table cell, badge and row is
computed in the source), with the pure rendering (Markdown pipes, HTML
tags, CSS classes, check-mark spans) stripped away. -/

/-- The three-way entity classification used by both renderers. -/
inductive EntityTypeLabel
  | strong
  | weak
  | lookup
deriving DecidableEq

/-- `formatRelationshipType`, shared verbatim by both renderers. -/
def formatRelationshipType (type : String) : String :=
  if type = "" then "Undefined"
  else
    let u := upperStr type
    if u = "ONE_TO_ONE" then "One-to-One (1:1)"
    else if u = "ONE_TO_MANY" then "One-to-Many (1:N)"
    else if u = "MANY_TO_ONE" then "Many-to-One (N:1)"
    else if u = "MANY_TO_MANY" then "Many-to-Many (N:M)"
    else type

/-- `getCardinalityFromType`, shared verbatim by both renderers. -/
def getCardinalityFromType (type : String) (side : String) : String :=
  if type = "" then "1"
  else
    let u := upperStr type
    if u = "ONE_TO_ONE" then "1"
    else if u = "ONE_TO_MANY" then (if side = "source" then "1" else "N")
    else if u = "MANY_TO_ONE" then (if side = "source" then "N" else "1")
    else if u = "MANY_TO_MANY" then (if side = "source" then "M" else "N")
    else "1"

/-- One row of the per-table column listing. -/
structure ColumnFact where
  name : String
  dataType : String
  isPrimaryKey : Bool
  isForeignKey : Bool
  isNullable : Bool
  isUnique : Bool
  defaultValue : String
  description : String
deriving DecidableEq

/-- One row of the per-table foreign-key reference listing. -/
structure FkFact where
  column : String
  referencesText : String
  onDelete : String
  onUpdate : String
deriving DecidableEq

structure TableFacts where
  name : String
  entityType : EntityTypeLabel
  columns : List ColumnFact
  foreignKeys : List FkFact
deriving DecidableEq

/-- One row of the global relationships listing. -/
structure RelFact where
  sourceEntity : String
  relName : String
  targetEntity : String
  typeText : String
  sourceCardinality : String
  targetCardinality : String
  isIdentifying : Bool
  description : String
deriving DecidableEq

structure RelAttrFact where
  name : String
  dataType : String
  description : String
deriving DecidableEq

/-- One relationship-attributes block. -/
structure RelAttrGroup where
  relName : String
  sourceEntity : String
  targetEntity : String
  rows : List RelAttrFact
deriving DecidableEq

structure DocFacts where
  tables : List TableFacts
  relationships : List RelFact
  relationshipAttributes : List RelAttrGroup
deriving DecidableEq

/-- Fact content of `generateMarkdownDocumentation`, cell by cell. -/
def markdownDocFacts (schema : Schema) : DocFacts :=
  { tables := schema.tables.map (fun table =>
      { name := table.name
        entityType :=
          if table.isWeakEntity then EntityTypeLabel.weak
          else if table.isLookupTable then EntityTypeLabel.lookup
          else EntityTypeLabel.strong
        columns := table.columns.map (fun column =>
          { name := column.name
            dataType := column.dataType
            isPrimaryKey := column.isPrimaryKey
            isForeignKey := column.isForeignKey
            isNullable := column.isNullable != false
            isUnique := column.isUnique
            defaultValue := jsOrO column.defaultValue ""
            description := jsOr column.description "" })
        foreignKeys :=
          (table.columns.filter (fun col => col.isForeignKey && col.references.isSome)).map
            (fun column =>
              match column.references with
              | some refs =>
                { column := column.name
                  referencesText := refs.table ++ "." ++ refs.column
                  onDelete := jsOr refs.onDelete "NO ACTION"
                  onUpdate := jsOr refs.onUpdate "NO ACTION" }
              | none => { column := column.name, referencesText := "",
                          onDelete := "NO ACTION", onUpdate := "NO ACTION" }) })
    relationships := schema.relationships.map (fun relationship =>
      { sourceEntity := jsOr relationship.sourceEntity relationship.sourceTable
        relName := jsOr relationship.name "relates to"
        targetEntity := jsOr relationship.targetEntity relationship.targetTable
        typeText := formatRelationshipType relationship.type
        sourceCardinality := jsOrO relationship.sourceCardinality
          (getCardinalityFromType relationship.type "source")
        targetCardinality := jsOrO relationship.targetCardinality
          (getCardinalityFromType relationship.type "target")
        isIdentifying := relationship.isIdentifying
        description := jsOr relationship.description "" })
    relationshipAttributes :=
      (schema.relationships.filter (fun rel => !rel.attributes.isEmpty)).map
        (fun relationship =>
          { relName := jsOr relationship.name "Relationship"
            sourceEntity := jsOr relationship.sourceEntity relationship.sourceTable
            targetEntity := jsOr relationship.targetEntity relationship.targetTable
            rows := relationship.attributes.map (fun attr =>
              { name := attr.name
                dataType := jsOr attr.dataType ""
                description := jsOr attr.description "" }) }) }

/-- Fact content of `generateHtmlDocumentation`, cell by cell. -/
def htmlDocFacts (schema : Schema) : DocFacts :=
  { tables := schema.tables.map (fun table =>
      { name := table.name
        entityType :=
          if table.isWeakEntity then EntityTypeLabel.weak
          else if table.isLookupTable then EntityTypeLabel.lookup
          else EntityTypeLabel.strong
        columns := table.columns.map (fun column =>
          { name := column.name
            dataType := column.dataType
            isPrimaryKey := column.isPrimaryKey
            isForeignKey := column.isForeignKey
            isNullable := column.isNullable != false
            isUnique := column.isUnique
            defaultValue := jsOrO column.defaultValue ""
            description := jsOr column.description "" })
        foreignKeys :=
          (table.columns.filter (fun col => col.isForeignKey && col.references.isSome)).map
            (fun column =>
              match column.references with
              | some refs =>
                { column := column.name
                  referencesText := refs.table ++ "." ++ refs.column
                  onDelete := jsOr refs.onDelete "NO ACTION"
                  onUpdate := jsOr refs.onUpdate "NO ACTION" }
              | none => { column := column.name, referencesText := "",
                          onDelete := "NO ACTION", onUpdate := "NO ACTION" }) })
    relationships := schema.relationships.map (fun relationship =>
      { sourceEntity := jsOr relationship.sourceEntity relationship.sourceTable
        relName := jsOr relationship.name "relates to"
        targetEntity := jsOr relationship.targetEntity relationship.targetTable
        typeText := formatRelationshipType relationship.type
        sourceCardinality := jsOrO relationship.sourceCardinality
          (getCardinalityFromType relationship.type "source")
        targetCardinality := jsOrO relationship.targetCardinality
          (getCardinalityFromType relationship.type "target")
        isIdentifying := relationship.isIdentifying
        description := jsOr relationship.description "" })
    relationshipAttributes :=
      (schema.relationships.filter (fun rel => !rel.attributes.isEmpty)).map
        (fun relationship =>
          { relName := jsOr relationship.name "Relationship"
            sourceEntity := jsOr relationship.sourceEntity relationship.sourceTable
            targetEntity := jsOr relationship.targetEntity relationship.targetTable
            rows := relationship.attributes.map (fun attr =>
              { name := attr.name
                dataType := jsOr attr.dataType ""
                description := jsOr attr.description "" }) }) }

/-! ## Auxiliary definitions for the statements of the claims -/

/-- Number of columns of a given name. -/
def countName (cols : List Column) (n : String) : Nat :=
  cols.countP (fun c => c.name == n)

/-- Number of input attributes whose derived column name is `n`. -/
def attrNameCount (attrs : List AttrIn) (n : String) : Nat :=
  attrs.countP (fun a => attrColumnName a == n)

/-- The foreign-key column that a ONE_TO_MANY relationship adds to its
target table, expressed with the data type of the source table's
primary-key column as the claim states it: named after the source table,
typed like the referenced primary key, nullable, not a primary key, with
CASCADE rules on both actions. -/
def c3FkColumn (srcName : String) (pk : Column) : Column :=
  { name := lowerStr srcName ++ "_id"
    dataType := pk.dataType
    isPrimaryKey := false
    isForeignKey := true
    isNullable := true
    isUnique := false
    references := some ⟨srcName, pk.name, "CASCADE", "CASCADE"⟩
    description := "Foreign key reference to " ++ srcName }

/-- The relationship line emitted by the services Mermaid generator,
as a function of the entities, label and the two cardinality symbols. -/
def svcRelLine (r : MRelationship) (sc tc : String) : String :=
  "    " ++ lowerStr (MermaidSvc.sanitizeName (jsOrOpt r.sourceEntity r.sourceTable)) ++
    " " ++ sc ++ " -- " ++ tc ++ " " ++
    lowerStr (MermaidSvc.sanitizeName (jsOrOpt r.targetEntity r.targetTable)) ++
    " : \"" ++ MermaidSvc.escapeQuotes (jsOrO r.name "relates") ++ "\"\n"

/-! Concrete instances used by the scenario claims, witnesses and
counterexamples. -/

def bookEntity : EntityIn :=
  { name := some "Book",
    attributes := [{ name := some "title", dataType := some "VARCHAR(255)" }] }

def authorEntity : EntityIn := { name := some "Author" }

def bookTitleColumn : Column :=
  { name := "title", dataType := "VARCHAR(255)", isPrimaryKey := false,
    isForeignKey := false, isNullable := true, description := "title column" }

/-- The normalized `book` table the specification scenario expects. -/
def bookTableExpected : Table :=
  { name := "book",
    columns := [idColumn, bookTitleColumn, createdAtColumn, updatedAtColumn],
    description := "Table for Book",
    isLookupTable := true }

def authorBookRel : RelIn :=
  { sourceEntity := some "Author", targetEntity := some "Book", type := some "ONE_TO_MANY" }

/-- An entity whose attribute list mentions `created_at` twice. -/
def dupTimestampEntity : EntityIn :=
  { name := some "Log",
    attributes := [{ name := some "created_at" }, { name := some "created_at" }] }

def studentTable : Table := { name := "student", columns := [idColumn] }

def courseTable : Table := { name := "course", columns := [idColumn] }

def enrollsRel : Relationship :=
  { name := "enrolls", sourceTable := "student", sourceEntity := "Student",
    targetTable := "course", targetEntity := "Course", sourceColumn := "id",
    targetColumn := "id", type := "MANY_TO_MANY", isIdentifying := false,
    description := "students enroll in courses" }

/-- Student / course schema with one MANY_TO_MANY relationship. -/
def studentCourseSchema : Schema :=
  { name := "uni", tables := [studentTable, courseTable], relationships := [enrollsRel] }

/-- The same schema with a pre-existing (ordinary) table that already
occupies the junction-table name. -/
def studentCourseCollidingSchema : Schema :=
  { name := "uni",
    tables := [studentTable, courseTable, { name := "student_course", columns := [idColumn] }],
    relationships := [enrollsRel] }

/-- A relationship of the shape the normalizer produces, with an
upper-case type and no cardinality override. -/
def mermaidRelO2M : MRelationship :=
  { name := some "has", sourceEntity := some "author", targetEntity := some "book",
    sourceTable := some "author", targetTable := some "book",
    type := some "ONE_TO_MANY" }

/-- A relationship with both table fields set but no source entity. -/
def mermaidRelNoSourceEntity : MRelationship :=
  { name := some "takes", sourceTable := some "student", targetTable := some "course",
    targetEntity := some "Course" }

/-! ## Helper lemmas -/

theorem findWithIdx_get? {α : Type} {p : α → Bool} {l : List α} {i : Nat} {a : α}
    (h : findWithIdx p l = some (i, a)) : l.get? i = some a := by
  induction l generalizing i with
  | nil => simp [findWithIdx] at h
  | cons x xs ih =>
    unfold findWithIdx at h
    by_cases hx : p x
    · rw [if_pos hx] at h
      injection h with h'
      injection h' with h1 h2
      subst h1; subst h2
      rfl
    · rw [if_neg hx] at h
      cases hfind : findWithIdx p xs with
      | none => rw [hfind] at h; simp at h
      | some ja =>
        obtain ⟨j, b⟩ := ja
        rw [hfind] at h
        simp only [Option.map_some'] at h
        injection h with h'
        injection h' with h1 h2
        subst h1; subst h2
        simpa using ih hfind

theorem modifyAt_eq_set {α : Type} {l : List α} {i : Nat} {a : α} (f : α → α)
    (h : l.get? i = some a) : modifyAt l i f = l.set i (f a) := by
  induction l generalizing i with
  | nil => simp at h
  | cons x xs ih =>
    cases i with
    | zero =>
      injection h with h'
      subst h'
      rfl
    | succ n =>
      have h' : xs.get? n = some a := h
      show x :: modifyAt xs n f = (x :: xs).set (n + 1) (f a)
      rw [List.set_cons_succ, ih h']

theorem findIdx?_append_cons {α : Type} (p : α → Bool) (pre post : List α) (a : α) (i : Nat)
    (hpre : ∀ x ∈ pre, p x = false) (ha : p a = true) :
    List.findIdx? p (pre ++ a :: post) i = some (i + pre.length) := by
  induction pre generalizing i with
  | nil => simp [List.findIdx?_cons, ha]
  | cons y ys ih =>
    have hys : ∀ x ∈ ys, p x = false := fun x hx => hpre x (List.mem_cons_of_mem y hx)
    rw [List.cons_append, List.findIdx?_cons,
      if_neg (by simp [hpre y (List.mem_cons_self y ys)]),
      ih (i + 1) hys]
    congr 1
    simp
    omega

theorem filter_pk_map_eq_nil {β : Type} (f : β → Column)
    (hf : ∀ a, (f a).isPrimaryKey = false) (l : List β) :
    (l.map f).filter (·.isPrimaryKey) = [] := by
  induction l with
  | nil => rfl
  | cons a l ih => simp [List.filter_cons, hf a, ih]

theorem beq_false_of_getLast_ne {a b : String} {c c' : Char}
    (ha : a.data.getLast? = some c) (hb : b.data.getLast? = some c') (hcc : c ≠ c') :
    (a == b) = false := by
  apply beq_eq_false_iff_ne.mpr
  intro h
  subst h
  rw [ha] at hb
  injection hb with h'
  exact hcc h'

theorem append_id_getLast (s : String) : (s ++ "_id").data.getLast? = some 'd' := by
  rw [String.data_append, List.getLast?_append]
  rfl

theorem countP_modifyFirstBy {α : Type} (p q : α → Bool) (f : α → α) (l : List α)
    (h : ∀ a, p (f a) = p a) : (modifyFirstBy q f l).countP p = l.countP p := by
  induction l with
  | nil => rfl
  | cons a l ih =>
    unfold modifyFirstBy
    by_cases hq : q a
    · simp [hq, List.countP_cons, h a]
    · simp [hq, List.countP_cons, ih]

theorem countP_insertAt {α : Type} (p : α → Bool) (x : α) (l : List α) (i : Nat) :
    (insertAt l i x).countP p = l.countP p + (if p x then 1 else 0) := by
  induction l generalizing i with
  | nil => cases i <;> simp [insertAt, List.countP_cons]
  | cons a l ih =>
    cases i with
    | zero => simp [insertAt, List.countP_cons]; try omega
    | succ n => simp [insertAt, List.countP_cons, ih]; try omega

theorem map_modifyAt_eq {α β : Type} (g : α → β) (f : α → α) (l : List α) (i : Nat)
    (h : ∀ a, g (f a) = g a) : (modifyAt l i f).map g = l.map g := by
  induction l generalizing i with
  | nil => rfl
  | cons a l ih =>
    cases i with
    | zero => simp [modifyAt, h a]
    | succ n => simp [modifyAt, ih]

theorem countName_addForeignKey (t : Table) (rn : String) (rc : PkRef) (n : String)
    (hn : n.data.getLast? = some 't') :
    countName (addForeignKey t rn rc).columns n = countName t.columns n := by
  unfold countName
  simp only [addForeignKey]
  split
  · rfl
  · simp [List.countP_append, List.countP_cons,
      beq_false_of_getLast_ne (append_id_getLast (lowerStr rn)) hn (by decide)]

theorem countsOf_setupForeignKeys (effType : String) (iid : Bool) (si ti : Nat)
    (sn tn : String) (sc tc : PkRef) (tables : List Table) (n : String)
    (hn : n.data.getLast? = some 't') :
    (setupForeignKeys effType iid si ti sn tn sc tc tables).map
        (fun t => countName t.columns n) =
      tables.map (fun t => countName t.columns n) := by
  simp only [setupForeignKeys]
  split_ifs <;>
    first
      | rfl
      | (apply map_modifyAt_eq; intro a; exact countName_addForeignKey a _ _ n hn)

theorem countsOf_transformRelationship (tables : List Table) (r : RelIn) (n : String)
    (hn : n.data.getLast? = some 't') :
    ((transformRelationship tables r).1).map (fun t => countName t.columns n) =
      tables.map (fun t => countName t.columns n) := by
  simp only [transformRelationship]
  split
  · rfl
  · split
    · exact countsOf_setupForeignKeys _ _ _ _ _ _ _ _ _ n hn
    · rfl

theorem countsOf_foldl_transformStep (rels : List RelIn)
    (acc : List Table × List Relationship) (n : String)
    (hn : n.data.getLast? = some 't') :
    ((rels.foldl transformStep acc).1).map (fun t => countName t.columns n) =
      (acc.1).map (fun t => countName t.columns n) := by
  induction rels generalizing acc with
  | nil => rfl
  | cons r rels ih =>
    rw [List.foldl_cons, ih]
    have hfst : (transformStep acc r).1 = (transformRelationship acc.1 r).1 := by
      unfold transformStep
      rcases h : transformRelationship acc.1 r with ⟨ts, orel⟩
      cases orel <;> simp
    rw [hfst]
    exact countsOf_transformRelationship acc.1 r n hn

theorem countName_weakFkStep (ownerName : String) (ownerCols : List Column) (dep : Table)
    (n : String) (hn : n.data.getLast? = some 't') :
    countName (weakFkStep ownerName ownerCols dep).columns n = countName dep.columns n := by
  unfold countName
  simp only [weakFkStep]
  split
  · simp [weakEntityFkColumn, List.countP_cons,
      beq_false_of_getLast_ne (append_id_getLast (lowerStr ownerName)) hn (by decide)]
  · exact countP_modifyFirstBy _ _ _ _ (fun a => rfl)

theorem countName_partialKeyStep (fkName : String) (dep : Table) (n : String)
    (hn : n.data.getLast? = some 't') :
    countName (partialKeyStep fkName dep).columns n = countName dep.columns n := by
  unfold countName
  simp only [partialKeyStep]
  split
  · rfl
  · simp [countP_insertAt,
      show ((partialIdColumn.name == n) = false) from
        beq_false_of_getLast_ne (by rfl) hn (by decide)]

theorem countsOf_processIdentifyingOne (tables : List Table) (rel : Relationship)
    (n : String) (hn : n.data.getLast? = some 't') :
    (processIdentifyingOne tables rel).map (fun t => countName t.columns n) =
      tables.map (fun t => countName t.columns n) := by
  simp only [processIdentifyingOne]
  split
  · rw [map_modifyAt_eq _ _ _ _ (fun a => countName_partialKeyStep _ a n hn),
      map_modifyAt_eq _ _ _ _ (fun a => countName_weakFkStep _ _ a n hn)]
    apply map_modifyAt_eq
    intro a
    rfl
  · rfl

theorem countsOf_processIdentifyingRelationships (rels : List Relationship)
    (tables : List Table) (n : String) (hn : n.data.getLast? = some 't') :
    (processIdentifyingRelationships rels tables).map (fun t => countName t.columns n) =
      tables.map (fun t => countName t.columns n) := by
  unfold processIdentifyingRelationships
  generalize rels.filter (·.isIdentifying) = l
  induction l generalizing tables with
  | nil => rfl
  | cons rel l ih =>
    rw [List.foldl_cons, ih, countsOf_processIdentifyingOne tables rel n hn]

theorem countsOf_detectLookupTables (tables : List Table) (n : String) :
    (detectLookupTables tables).map (fun t => countName t.columns n) =
      tables.map (fun t => countName t.columns n) := by
  unfold detectLookupTables
  rw [List.map_map]
  apply List.map_congr_left
  intro t _
  simp only [Function.comp_apply]
  split
  · rfl
  · split <;> rfl

theorem countName_ensurePrimaryKey (cols : List Column) (n : String)
    (hn : (("id" : String) == n) = false) :
    countName (ensurePrimaryKey cols) n = countName cols n := by
  unfold countName ensurePrimaryKey
  split
  · rfl
  · simp [List.countP_cons, idColumn, hn]

theorem countName_ensureCreatedAt_self (cols : List Column) :
    countName (ensureCreatedAt cols) "created_at" = max 1 (countName cols "created_at") := by
  unfold countName ensureCreatedAt
  by_cases h : (cols.any fun c => c.name == "created_at") = true
  · rw [if_pos h]
    obtain ⟨c, hc, hcc⟩ := List.any_eq_true.mp h
    have : 0 < cols.countP (fun c => c.name == "created_at") :=
      List.countP_pos_iff.mpr ⟨c, hc, hcc⟩
    omega
  · rw [if_neg h]
    have h0 : cols.countP (fun c => c.name == "created_at") = 0 :=
      List.countP_eq_zero.mpr (fun a ha hp => h (List.any_eq_true.mpr ⟨a, ha, hp⟩))
    simp [List.countP_append, h0, createdAtColumn]

theorem countName_ensureCreatedAt_other (cols : List Column) (n : String)
    (hn : (("created_at" : String) == n) = false) :
    countName (ensureCreatedAt cols) n = countName cols n := by
  unfold countName ensureCreatedAt
  split
  · rfl
  · simp [List.countP_append, createdAtColumn, hn]

theorem countName_ensureUpdatedAt_self (cols : List Column) :
    countName (ensureUpdatedAt cols) "updated_at" = max 1 (countName cols "updated_at") := by
  unfold countName ensureUpdatedAt
  by_cases h : (cols.any fun c => c.name == "updated_at") = true
  · rw [if_pos h]
    obtain ⟨c, hc, hcc⟩ := List.any_eq_true.mp h
    have : 0 < cols.countP (fun c => c.name == "updated_at") :=
      List.countP_pos_iff.mpr ⟨c, hc, hcc⟩
    omega
  · rw [if_neg h]
    have h0 : cols.countP (fun c => c.name == "updated_at") = 0 :=
      List.countP_eq_zero.mpr (fun a ha hp => h (List.any_eq_true.mpr ⟨a, ha, hp⟩))
    simp [List.countP_append, h0, updatedAtColumn]

theorem countName_ensureUpdatedAt_other (cols : List Column) (n : String)
    (hn : (("updated_at" : String) == n) = false) :
    countName (ensureUpdatedAt cols) n = countName cols n := by
  unfold countName ensureUpdatedAt
  split
  · rfl
  · simp [List.countP_append, updatedAtColumn, hn]

theorem countName_buildTable_created (e : EntityIn) :
    countName (buildTable e).columns "created_at" =
      max 1 (attrNameCount e.attributes "created_at") := by
  simp only [buildTable]
  rw [countName_ensureUpdatedAt_other _ _ (by decide), countName_ensureCreatedAt_self,
    countName_ensurePrimaryKey _ _ (by decide)]
  unfold generateColumnsFromAttributes
  by_cases he : e.attributes.isEmpty
  · rw [if_pos he, List.isEmpty_iff.mp he]
    decide
  · rw [if_neg he]
    congr 1
    unfold countName attrNameCount
    rw [List.countP_map]
    rfl

theorem countName_buildTable_updated (e : EntityIn) :
    countName (buildTable e).columns "updated_at" =
      max 1 (attrNameCount e.attributes "updated_at") := by
  simp only [buildTable]
  rw [countName_ensureUpdatedAt_self, countName_ensureCreatedAt_other _ _ (by decide),
    countName_ensurePrimaryKey _ _ (by decide)]
  unfold generateColumnsFromAttributes
  by_cases he : e.attributes.isEmpty
  · rw [if_pos he, List.isEmpty_iff.mp he]
    decide
  · rw [if_neg he]
    congr 1
    unfold countName attrNameCount
    rw [List.countP_map]
    rfl

/-! ## Claims -/

/-- C1 (amended): for a schema containing exactly one MANY_TO_MANY
relationship, between two tables present in the schema, and in which no
table already occupies the junction-table name, SQL preprocessing
appends exactly one junction table named sourceTable_targetTable whose
primary-key group is the composite of the two foreign-key columns
referencing the endpoint primary keys; no column is added to the source
or target table themselves (they are returned unchanged inside the
unchanged prefix of the table list); and the MANY_TO_MANY relationship
is replaced, in place, by the two ONE_TO_MANY relationships to the
junction table. -/
theorem c1_many_to_many_junction_synthesis (s : Schema) (d : String)
    (pre post : List Relationship) (r : Relationship)
    (st tt : Table) (spk tpk : Column)
    (hrels : s.relationships = pre ++ r :: post)
    (htype : r.type = "MANY_TO_MANY")
    (honly : ∀ x, x ∈ pre ++ post → x.type ≠ "MANY_TO_MANY")
    (hst : s.tables.find? (fun t => t.name == r.sourceTable) = some st)
    (htt : s.tables.find? (fun t => t.name == r.targetTable) = some tt)
    (hspk : st.columns.find? (·.isPrimaryKey) = some spk)
    (htpk : tt.columns.find? (·.isPrimaryKey) = some tpk)
    (hfresh : s.tables.any (fun t => t.name == st.name ++ "_" ++ tt.name) = false) :
    preprocessSchema s d =
      { s with
        tables := s.tables ++
          [junctionTableFor st tt (spk.name, spk.dataType) (tpk.name, tpk.dataType) r],
        relationships :=
          pre ++ sourceToJunctionRel st (spk.name, spk.dataType) r (st.name ++ "_" ++ tt.name) ::
            targetToJunctionRel tt (tpk.name, tpk.dataType) r (st.name ++ "_" ++ tt.name) ::
              post } ∧
    ((junctionTableFor st tt (spk.name, spk.dataType) (tpk.name, tpk.dataType) r).columns.filter
        (·.isPrimaryKey)).map (·.name) =
      [st.name ++ "_" ++ spk.name, tt.name ++ "_" ++ tpk.name] := by
  constructor
  · have hfilter : s.relationships.filter (fun rel => rel.type == "MANY_TO_MANY") = [r] := by
      rw [hrels, List.filter_append, List.filter_cons]
      rw [if_pos (by simp [htype])]
      rw [List.filter_eq_nil_iff.mpr (fun a ha => by
            simp [honly a (List.mem_append_left post ha)]),
          List.filter_eq_nil_iff.mpr (fun a ha => by
            simp [honly a (List.mem_append_right pre ha)])]
      rfl
    have hidx : s.relationships.findIdx? (fun rel =>
        rel.sourceTable == r.sourceTable && rel.targetTable == r.targetTable &&
        rel.type == "MANY_TO_MANY") = some pre.length := by
      rw [hrels]
      have := findIdx?_append_cons (fun rel =>
        rel.sourceTable == r.sourceTable && rel.targetTable == r.targetTable &&
        rel.type == "MANY_TO_MANY") pre post r 0
        (fun x hx => by simp [honly x (List.mem_append_left post hx)])
        (by simp [htype])
      simpa using this
    unfold preprocessSchema
    rw [hfilter]
    show preprocessOne s r = _
    unfold preprocessOne
    rw [hst, htt]
    simp only [hspk, htpk, hidx]
    rw [if_neg (by rw [hfresh]; simp)]
    rw [hrels]
    have htake : (pre ++ r :: post).take pre.length = pre :=
      @List.take_left' _ pre (r :: post) _ rfl
    have hdrop : (pre ++ r :: post).drop (pre.length + 1) = post := by
      rw [show pre ++ r :: post = (pre ++ [r]) ++ post by simp]
      exact @List.drop_left' _ (pre ++ [r]) post _ (by simp)
    rw [htake, hdrop]
    simp only [List.append_assoc, List.cons_append, List.nil_append, and_self]
    rfl
  · simp only [junctionTableFor, List.filter_append]
    rw [filter_pk_map_eq_nil _ (fun a => rfl)]
    simp [createdAtColumn, updatedAtColumn]

/-- C1 witness: the student / course scenario, with primary keys named
id, receives the junction table student_course with composite key
(student_id, course_id) and the two replacement relationships. -/
theorem c1_witness_student_course :
    preprocessSchema studentCourseSchema "mysql" =
      { studentCourseSchema with
        tables := studentCourseSchema.tables ++
          [junctionTableFor studentTable courseTable ("id", "INTEGER") ("id", "INTEGER")
            enrollsRel],
        relationships :=
          [sourceToJunctionRel studentTable ("id", "INTEGER") enrollsRel "student_course",
           targetToJunctionRel courseTable ("id", "INTEGER") enrollsRel "student_course"] } ∧
    ((junctionTableFor studentTable courseTable ("id", "INTEGER") ("id", "INTEGER")
        enrollsRel).columns.filter (·.isPrimaryKey)).map (·.name) =
      ["student_id", "course_id"] := by
  exact c1_many_to_many_junction_synthesis studentCourseSchema "mysql" [] [] enrollsRel
    studentTable courseTable idColumn idColumn rfl rfl
    (fun x hx => absurd hx (by simp)) (by decide) (by decide) (by decide) (by decide)
    (by decide)

/-- C1 counterexample: the claim as stated fails when a table already
occupies the junction-table name.  The schema holds a MANY_TO_MANY
relationship between two tables present in it, yet preprocessing
returns it unchanged: no junction table is synthesized and the
MANY_TO_MANY relationship is not replaced. -/
theorem c1_counterexample_existing_junction_name :
    (studentCourseCollidingSchema.relationships.any
      (fun rel => rel.type == "MANY_TO_MANY")) = true ∧
    (studentCourseCollidingSchema.tables.any (fun t => t.name == "student")) = true ∧
    (studentCourseCollidingSchema.tables.any (fun t => t.name == "course")) = true ∧
    preprocessSchema studentCourseCollidingSchema "mysql" = studentCourseCollidingSchema ∧
    (studentCourseCollidingSchema.tables.all (fun t => !t.isJunctionTable)) = true := by
  decide

/-- C2 (amended): for every input, the normalizer produces one table per
entity, and the number of created_at (respectively updated_at) columns
in each table is exactly max 1 k, where k is the number of that entity's
input attributes whose normalized name is created_at (respectively
updated_at).  In particular each table carries each timestamp column at
least once, and exactly once whenever the entity declares at most one
attribute of that name; foreign-key and weak-entity processing never
changes these counts. -/
theorem c2_timestamp_columns_count (ed : ExtractedData) (opts : SchemaOptions) :
    ((generateSchema ed opts).tables).map (fun t => countName t.columns "created_at") =
      ed.entities.map (fun e => max 1 (attrNameCount e.attributes "created_at")) ∧
    ((generateSchema ed opts).tables).map (fun t => countName t.columns "updated_at") =
      ed.entities.map (fun e => max 1 (attrNameCount e.attributes "updated_at")) := by
  constructor
  · simp only [generateSchema]
    rw [countsOf_detectLookupTables,
      countsOf_processIdentifyingRelationships _ _ _ (by decide)]
    unfold transformRelationships
    rw [countsOf_foldl_transformStep _ _ _ (by decide)]
    rw [List.map_map]
    apply List.map_congr_left
    intro e _
    exact countName_buildTable_created e
  · simp only [generateSchema]
    rw [countsOf_detectLookupTables,
      countsOf_processIdentifyingRelationships _ _ _ (by decide)]
    unfold transformRelationships
    rw [countsOf_foldl_transformStep _ _ _ (by decide)]
    rw [List.map_map]
    apply List.map_congr_left
    intro e _
    exact countName_buildTable_updated e

/-- C2 counterexample: an entity declaring created_at twice yields a
table whose created_at column appears twice, refuting "exactly once
regardless of input". -/
theorem c2_counterexample_duplicate_created_at :
    ((generateSchema { entities := [dupTimestampEntity], relationships := [] }
        { name := "New Schema", description := "" }).tables.map
      (fun t => countName t.columns "created_at")) = [2] := by
  decide

/-- C3: a ONE_TO_MANY relationship whose endpoints resolve to existing
tables adds to the target table (when no column of that name exists) the
foreign-key column named after the source table, typed like the source
table's primary key, nullable, not a primary key, referencing the source
primary key with CASCADE on delete and update (see `c3FkColumn`). -/
theorem c3_one_to_many_adds_foreign_key (tables : List Table) (r : RelIn)
    (si ti : Nat) (st tt : Table) (pk : Column)
    (hse : jsTruthy (jsOrOpt r.sourceEntity r.sourceTable) = true)
    (hte : jsTruthy (jsOrOpt r.targetEntity r.targetTable) = true)
    (htype : r.type = some "ONE_TO_MANY")
    (hsrc : findWithIdx (fun t => lowerStr t.name ==
      lowerStr (transformTableName (jsOrOpt r.sourceEntity r.sourceTable))) tables =
      some (si, st))
    (htgt : findWithIdx (fun t => lowerStr t.name ==
      lowerStr (transformTableName (jsOrOpt r.targetEntity r.targetTable))) tables =
      some (ti, tt))
    (hpk : st.columns.find? (·.isPrimaryKey) = some pk)
    (hpkty : pk.dataType ≠ "")
    (hnofk : tt.columns.any (fun c => c.name == lowerStr st.name ++ "_id") = false) :
    (transformRelationship tables r).1 =
      tables.set ti { tt with columns := tt.columns ++ [c3FkColumn st.name pk] } := by
  have hget : tables.get? ti = some tt := findWithIdx_get? htgt
  simp only [transformRelationship, hse, hte, hsrc, htgt, htype, Bool.not_true,
    Bool.or_self, Bool.false_or, if_false, Bool.ite_eq_true_distrib]
  simp only [jsOrO, jsOr, if_neg (by decide : ¬("ONE_TO_MANY" : String) = "")]
  unfold setupForeignKeys
  rw [show upperStr "ONE_TO_MANY" = "ONE_TO_MANY" from by decide]
  simp only [if_pos rfl]
  rw [modifyAt_eq_set _ hget]
  unfold addForeignKey pkRefOf
  rw [hpk]
  simp [hnofk, c3FkColumn, jsOrO, jsOr, hpkty]

/-- C3 witness: the Author / Book scenario; the book table gains the
author_id column (INTEGER, nullable, references author.id, CASCADE on
both actions). -/
theorem c3_witness_author_book :
    (transformRelationship [buildTable authorEntity, buildTable bookEntity] authorBookRel).1 =
      [buildTable authorEntity, buildTable bookEntity].set 1
        { buildTable bookEntity with
          columns := (buildTable bookEntity).columns ++ [c3FkColumn "author" idColumn] } := by
  exact c3_one_to_many_adds_foreign_key
    [buildTable authorEntity, buildTable bookEntity] authorBookRel 0 1
    (buildTable authorEntity) (buildTable bookEntity) idColumn
    (by decide) (by decide) rfl (by decide) (by decide) (by decide) (by decide) (by decide)

/-- C4: normalizing the single Book entity with a VARCHAR(255) title and
no relationships yields exactly one table, named book, whose column
sequence is exactly id (INTEGER primary key), title (VARCHAR(255)),
created_at and updated_at (TIMESTAMP, default CURRENT_TIMESTAMP). -/
theorem c4_book_scenario :
    (generateSchema { entities := [bookEntity], relationships := [] }
        { name := "New Schema", description := "" }).tables = [bookTableExpected] := by
  decide

/-- C5: generateSQL leaves the caller's schema object unchanged — the
junction-table rewrite operates on the deep copy allocated at a fresh
store reference — and its output is assembled from the preprocessed
working copy. -/
theorem c5_generate_sql_preserves_caller_schema (store : SchemaStore) (r : Nat)
    (dialect : String) (schema : Schema)
    (h : readSchema store r = some schema) :
    readSchema (generateSQL store r dialect).1 r = some schema ∧
    (generateSQL store r dialect).2 =
      generateSQLStatements schema (preprocessSchema schema dialect) dialect := by
  have hr : r < store.length := by
    unfold readSchema at h
    exact (List.get?_eq_some.mp h).1
  simp only [generateSQL, h]
  constructor
  · unfold readSchema at *
    rw [List.get?_append hr]
    exact h
  · trivial

/-- C5 witness: a store holding the student / course schema (whose
MANY_TO_MANY relationship makes the preprocessing rewrite non-trivial)
still holds it unchanged after SQL generation. -/
theorem c5_witness_concrete_store :
    readSchema (generateSQL [studentCourseSchema] 0 "postgresql").1 0 =
      some studentCourseSchema ∧
    (generateSQL [studentCourseSchema] 0 "postgresql").2 =
      generateSQLStatements studentCourseSchema
        (preprocessSchema studentCourseSchema "postgresql") "postgresql" :=
  c5_generate_sql_preserves_caller_schema [studentCourseSchema] 0 "postgresql"
    studentCourseSchema rfl

/-- C7 (amended): the services implementation of the Mermaid generator
maps the normalizer's relationship types to the cardinality symbols of
the specification table whenever no per-relationship cardinality
override is present; the controller-file copy applies that mapping only
to lower-case hyphenated type spellings (see the counterexample). -/
theorem c7_svc_type_cardinality_mapping (r : MRelationship)
    (hc : r.cardinality = none)
    (hs : jsTruthy r.sourceEntity = true) (ht : jsTruthy r.targetEntity = true) :
    (r.type = some "ONE_TO_ONE" →
      MermaidSvc.generateRelationshipDefinition r = svcRelLine r "||" "||") ∧
    (r.type = some "ONE_TO_MANY" →
      MermaidSvc.generateRelationshipDefinition r = svcRelLine r "||" "o\x7b") ∧
    (r.type = some "MANY_TO_ONE" →
      MermaidSvc.generateRelationshipDefinition r = svcRelLine r "\x7do" "||") ∧
    (r.type = some "MANY_TO_MANY" →
      MermaidSvc.generateRelationshipDefinition r = svcRelLine r "\x7do" "o\x7b") := by
  refine ⟨fun h => ?_, fun h => ?_, fun h => ?_, fun h => ?_⟩
  · have hty : MermaidSvc.typeCardinalities (some "ONE_TO_ONE") = ("||", "||") := by decide
    simp [MermaidSvc.generateRelationshipDefinition, svcRelLine, hc, hs, ht, h, hty]
  · have hty : MermaidSvc.typeCardinalities (some "ONE_TO_MANY") = ("||", "o\x7b") := by
      decide
    simp [MermaidSvc.generateRelationshipDefinition, svcRelLine, hc, hs, ht, h, hty]
  · have hty : MermaidSvc.typeCardinalities (some "MANY_TO_ONE") = ("\x7do", "||") := by
      decide
    simp [MermaidSvc.generateRelationshipDefinition, svcRelLine, hc, hs, ht, h, hty]
  · have hty : MermaidSvc.typeCardinalities (some "MANY_TO_MANY") = ("\x7do", "o\x7b") := by
      decide
    simp [MermaidSvc.generateRelationshipDefinition, svcRelLine, hc, hs, ht, h, hty]

/-- C7 witness: a normalizer-shaped ONE_TO_MANY relationship receives
the double-bar / o-brace pair from the services implementation. -/
theorem c7_witness_one_to_many :
    MermaidSvc.generateRelationshipDefinition mermaidRelO2M =
      svcRelLine mermaidRelO2M "||" "o\x7b" :=
  (c7_svc_type_cardinality_mapping mermaidRelO2M rfl (by decide) (by decide)).2.1 rfl

/-- C7 counterexample: the controller-file copy of
generateRelationshipDefinition, handed the normalizer's ONE_TO_MANY type
with no cardinality override, emits double bars on both sides instead of
the o-brace demanded by the claimed mapping. -/
theorem c7_counterexample_ctrl_uppercase_type :
    mermaidRelO2M.cardinality = none ∧
    mermaidRelO2M.type = some "ONE_TO_MANY" ∧
    MermaidCtrl.generateRelationshipDefinition mermaidRelO2M =
      "    author ||--|| book : \"has\"\n" ∧
    MermaidCtrl.generateRelationshipDefinition mermaidRelO2M ≠
      "    author ||--o\x7b book : \"has\"\n" := by
  decide

set_option maxRecDepth 8000 in
/-- C8 (amended): the services auto-formatter is not idempotent in
general (see the counterexample); on the concrete canonically formatted
diagram below — an erDiagram header, two indented entity blocks
separated by blank lines, and a relationship line, the shape the
generator emits for well-formed schemas — it is a fixed point. -/
theorem c8_formatted_fixed_point :
    MermaidSvc.autoFormatMermaid
        "erDiagram\n    author \x7b\n        number id PK\n    \x7d\n\n    book \x7b\n        number id PK\n        string title\n        number author_id FK\n    \x7d\n\n    author || -- o\x7b book : \"has\"\n" =
      "erDiagram\n    author \x7b\n        number id PK\n    \x7d\n\n    book \x7b\n        number id PK\n        string title\n        number author_id FK\n    \x7d\n\n    author || -- o\x7b book : \"has\"\n" := by
  decide

set_option maxRecDepth 8000 in
/-- C8 counterexample: a text in the image of the auto-formatter that
the auto-formatter rewrites again.  Formatting "a b c}d e f}g" once,
the global junction rewrite matches "b c}d" and resumes scanning after
the replacement, so the remaining " e f}g" no longer has the required
three-word prefix and survives the pass; the first pass's output still
contains a word-brace junction that the second pass rewrites, so the
formatter is not idempotent on its image. -/
theorem c8_counterexample_not_idempotent :
    MermaidSvc.autoFormatMermaid (MermaidSvc.autoFormatMermaid "a b c\x7dd e f\x7dg") ≠
      MermaidSvc.autoFormatMermaid "a b c\x7dd e f\x7dg" := by
  decide

/-- C9: the Markdown and the HTML documentation renderers extract
identical factual content (tables with entity-type classification,
column facts, foreign-key reference rows, relationship rows and
relationship-attribute rows) from every schema; only the rendering
differs. -/
theorem c9_markdown_html_same_facts :
    ∀ (schema : Schema), markdownDocFacts schema = htmlDocFacts schema :=
  fun _ => rfl

/-- C10: both Mermaid implementations emit a relationship line only when
sourceEntity and targetEntity are truthy; a relationship carrying only
sourceTable / targetTable is silently dropped (empty string), although
the body below the guard would have fallen back to the table names. -/
theorem c10_missing_entity_relationship_omitted (relationship : MRelationship)
    (_hs : jsTruthy relationship.sourceTable = true)
    (_ht : jsTruthy relationship.targetTable = true)
    (h : jsTruthy relationship.sourceEntity = false ∨
      jsTruthy relationship.targetEntity = false) :
    MermaidCtrl.generateRelationshipDefinition relationship = "" ∧
    MermaidSvc.generateRelationshipDefinition relationship = "" := by
  rcases h with h | h <;>
    simp [MermaidCtrl.generateRelationshipDefinition,
      MermaidSvc.generateRelationshipDefinition, h]

/-- C10 witness: a relationship with both table names set but no source
entity produces no line from either implementation. -/
theorem c10_witness_missing_source_entity :
    MermaidCtrl.generateRelationshipDefinition mermaidRelNoSourceEntity = "" ∧
    MermaidSvc.generateRelationshipDefinition mermaidRelNoSourceEntity = "" :=
  c10_missing_entity_relationship_omitted mermaidRelNoSourceEntity
    (by decide) (by decide) (Or.inl (by decide))
